import Mathlib

/-!
Shallow embedding of `sentry/search/django/backend.py` (issue search backends).

Querysets are embedded as Lean lists over an explicit database value, Django
`filter(...)` calls become `List.filter` with the corresponding predicate, and
the fallible parts (Python `assert`, `KeyError`, `TypeError`) are embedded with
`Option`/`Except`.  Storage round-trips that the claims talk about (the
tagstore adapter call and the event-table narrowing query) are recorded in an
explicit trace.
-/

set_option autoImplicit false

/-- Modelled from the spec: `sentry.models.GroupStatus` is not among the
sources; the spec's data model lists the status enum
{unresolved, resolved, ignored, pending_deletion, deletion_in_progress,
pending_merge}. -/
inductive GroupStatus
  | unresolved
  | resolved
  | ignored
  | pending_deletion
  | deletion_in_progress
  | pending_merge
deriving DecidableEq, Repr

/-- The status tuple excluded by default searches
(`_build_queryset`, lines 79-84). -/
def defaultExcludedStatuses : List GroupStatus :=
  [GroupStatus.pending_deletion, GroupStatus.deletion_in_progress,
   GroupStatus.pending_merge]

/-- Modelled from the spec: `sentry.models.Project` is not among the sources;
only its `id` and `organization_id` are consumed by the backend. -/
structure Project where
  id : Nat
  organization_id : Nat
deriving DecidableEq, Repr

/-- Modelled from the spec: `sentry.models.Release`, identity
`(organization_id, version)`, referenced by `Issue.first_release`. -/
structure Release where
  id : Nat
  organization_id : Nat
  version : String
deriving DecidableEq, Repr

/-- Modelled from the spec: `sentry.models.Group` (an Issue).  Fields are the
attributes the backend filters and sorts on; `assignee_set` and `bookmark_set`
are the reverse relations (rows of `(project_id, user_id)`), and `score` is the
denormalized ranking column the plain backend sorts by for `priority`. -/
structure Issue where
  id : Nat
  project_id : Nat
  status : GroupStatus
  message : String
  culprit : String
  first_seen : Int
  last_seen : Int
  active_at : Int
  times_seen : Nat
  score : Int
  first_release_id : Option Nat
  assignee_set : List (Nat × Nat)
  bookmark_set : List (Nat × Nat)
deriving DecidableEq, Repr

/-- Modelled from the spec: `sentry.models.Event`; used only to narrow Issues
by event-level date range and message content. -/
structure Event where
  id : Nat
  group_id : Nat
  project_id : Nat
  datetime : Int
  message : String
deriving DecidableEq, Repr

/-- Modelled from the spec: `sentry.models.GroupSubscription`, the membership
record for `subscribed_by` filtering. -/
structure GroupSubscription where
  project_id : Nat
  group_id : Nat
  user_id : Nat
  is_active : Bool
deriving DecidableEq, Repr

/-- Modelled from the spec: `sentry.models.Environment`, a named scope per
project. -/
structure Environment where
  id : Nat
  project_id : Nat
  name : String
deriving DecidableEq, Repr

/-- Modelled from the spec: `sentry.models.GroupEnvironment`, the
per-environment membership record for an Issue, carrying an optional
per-environment first release. -/
structure GroupEnvironment where
  group_id : Nat
  environment_id : Nat
  first_release_id : Option Nat
deriving DecidableEq, Repr

/-- Modelled from the spec: `sentry.tagstore.models.GroupTagValue`, the
denormalized per-(project, key, value) tag membership row with per-environment
scalar statistics. -/
structure GroupTagValue where
  project_id : Nat
  group_id : Nat
  key : String
  value : String
  first_seen : Int
  last_seen : Int
  times_seen : Nat
deriving DecidableEq, Repr

/-- Modelled from the spec: `sentry.tagstore.models.GroupTagKey`, recording
that a tag key exists for an issue. -/
structure GroupTagKey where
  group_id : Nat
  key : String
deriving DecidableEq, Repr

/-- Modelled from the spec: the `first_release` parameter is "version string
or 'no-value' sentinel"; `EMPTY` is the sentinel from `sentry.search.base`
(not among the sources), distinct from every version string. -/
inductive FirstReleaseParam
  | EMPTY
  | version (v : String)
deriving DecidableEq, Repr

/-- Modelled from the spec: a tag filter value is either a concrete value or
the wildcard sentinel `ANY` from `sentry.search.base` (not among the sources),
which "only requires existence of the key, not a specific value". -/
inductive TagValue
  | any
  | val (s : String)
deriving DecidableEq, Repr

abbrev Tags := List (String × TagValue)

/-- Concrete-value match used when a tag value is compared against a stored
tag value column; the `ANY` sentinel never equals a stored string. -/
def TagValue.matchesValue : TagValue → String → Bool
  | TagValue.val s, x => s == x
  | TagValue.any, _ => false

/-- Storage round-trips recorded by the embedding: the tagstore adapter call
`get_group_ids_for_search_filter` and the event-table narrowing query. -/
inductive StorageCall
  | tagstoreSearch (project_id : Nat) (environment_id : Option Nat) (tags : Tags)
  | eventQuery (project_id : Nat)
deriving DecidableEq, Repr

/-- The database a search runs against.  `get_group_ids_for_search_filter` is
the Tag/Environment Store Adapter interface consumed as a black box. -/
structure DB where
  issues : List Issue
  events : List Event
  releases : List Release
  subscriptions : List GroupSubscription
  environments : List Environment
  groupEnvironments : List GroupEnvironment
  groupTagValues : List GroupTagValue
  groupTagKeys : List GroupTagKey
  get_group_ids_for_search_filter : Nat → Option Nat → Tags → List Nat

/-- Case-insensitive containment, Django's `__icontains`. -/
def icontains (field q : String) : Bool :=
  decide (q.toLower.toList <:+: field.toLower.toList)

/-- Conjunction of an optional lower and upper bound, each with its inclusive
flag, exactly as the `params` dictionaries of `_build_queryset` build it
(`__gte`/`__gt`/`__lte`/`__lt`). -/
def boundPred (lower : Option Int) (lowerInclusive : Bool)
    (upper : Option Int) (upperInclusive : Bool) (x : Int) : Bool :=
  (match lower with
   | some lo => if lowerInclusive then lo ≤ x else lo < x
   | none => true) &&
  (match upper with
   | some hi => if upperInclusive then x ≤ hi else x < hi
   | none => true)

/-- Keyword arguments of `DjangoSearchBackend._build_queryset`, in source
order; `none` is the `None` default of each keyword. -/
structure BuildParams where
  query : Option String := none
  status : Option GroupStatus := none
  tags : Option Tags := none
  bookmarked_by : Option Nat := none
  assigned_to : Option Nat := none
  first_release : Option FirstReleaseParam := none
  sort_by : String := "date"
  unassigned : Option Bool := none
  subscribed_by : Option Nat := none
  age_from : Option Int := none
  age_from_inclusive : Bool := true
  age_to : Option Int := none
  age_to_inclusive : Bool := true
  last_seen_from : Option Int := none
  last_seen_from_inclusive : Bool := true
  last_seen_to : Option Int := none
  last_seen_to_inclusive : Bool := true
  date_from : Option Int := none
  date_from_inclusive : Bool := true
  date_to : Option Int := none
  date_to_inclusive : Bool := true
  active_at_from : Option Int := none
  active_at_from_inclusive : Bool := true
  active_at_to : Option Int := none
  active_at_to_inclusive : Bool := true
  times_seen : Option Nat := none
  times_seen_lower : Option Nat := none
  times_seen_lower_inclusive : Bool := true
  times_seen_upper : Option Nat := none
  times_seen_upper_inclusive : Bool := true
  cursor : Option Nat := none
  limit : Option Nat := none
  environment_id : Option Nat := none
deriving Repr

/-- `if query: queryset.filter(Q(message__icontains) | Q(culprit__icontains))`
(lines 71-77); a `None` or empty query string is falsy and skips the filter. -/
def queryStep (q : Option String) (qs : List Issue) : List Issue :=
  match q with
  | some s =>
    if s != "" then
      qs.filter (fun g => icontains g.message s || icontains g.culprit s)
    else qs
  | none => qs

/-- Status handling (lines 79-86): `None` excludes the default-excluded
statuses, an explicit status filters on it. -/
def statusStep (status : Option GroupStatus) (qs : List Issue) : List Issue :=
  match status with
  | none => qs.filter (fun g => !(defaultExcludedStatuses.contains g.status))
  | some s => qs.filter (fun g => g.status == s)

/-- `bookmark_set__project=project, bookmark_set__user=bookmarked_by`
(lines 88-92). -/
def bookmarkedStep (project : Project) (u : Option Nat) (qs : List Issue) :
    List Issue :=
  match u with
  | some user => qs.filter (fun g => g.bookmark_set.contains (project.id, user))
  | none => qs

/-- Lines 94-102: `assigned_to` wins; otherwise `unassigned in (True, False)`
filters on `assignee_set__isnull`. -/
def assignedStep (project : Project) (assigned_to : Option Nat)
    (unassigned : Option Bool) (qs : List Issue) : List Issue :=
  match assigned_to with
  | some user => qs.filter (fun g => g.assignee_set.contains (project.id, user))
  | none =>
    match unassigned with
    | some b => qs.filter (fun g => g.assignee_set.isEmpty == b)
    | none => qs

/-- Lines 104-111: membership in the active `GroupSubscription` rows for the
(project, user). -/
def subscribedStep (db : DB) (project : Project) (u : Option Nat)
    (qs : List Issue) : List Issue :=
  match u with
  | some user => qs.filter (fun g =>
      db.subscriptions.any (fun s =>
        s.project_id == project.id && s.user_id == user && s.is_active &&
          s.group_id == g.id))
  | none => qs

/-- Predicate of `first_release__organization_id=…, first_release__version=…`
(lines 116-119): the issue's first-release foreign key joins a Release of the
project's organization with that version. -/
def firstReleasePred (db : DB) (project : Project) (v : String) (g : Issue) :
    Bool :=
  match g.first_release_id with
  | some rid => db.releases.any (fun r =>
      r.id == rid && r.organization_id == project.organization_id &&
        r.version == v)
  | none => false

/-- One optional-bounds scalar range block of `_build_queryset`
(e.g. lines 129-141 for `age_from`/`age_to` on `first_seen`). -/
def scalarRangeStep (lower : Option Int) (lowerInclusive : Bool)
    (upper : Option Int) (upperInclusive : Bool) (field : Issue → Int)
    (qs : List Issue) : List Issue :=
  if lower.isSome || upper.isSome then
    qs.filter (fun g => boundPred lower lowerInclusive upper upperInclusive (field g))
  else qs

/-- `if times_seen is not None: queryset.filter(times_seen=times_seen)`
(lines 171-172). -/
def timesSeenStep (t : Option Nat) (qs : List Issue) : List Issue :=
  match t with
  | some n => qs.filter (fun g => g.times_seen == n)
  | none => qs

/-- Event-level date narrowing (lines 188-223): select the distinct group ids
of matching events, capped at 1000, and restrict the queryset to them.  The
event query is recorded as a storage call. -/
def dateStep (db : DB) (project : Project) (q : Option String)
    (date_from : Option Int) (dfInclusive : Bool)
    (date_to : Option Int) (dtInclusive : Bool)
    (qs : List Issue) : List Issue × List StorageCall :=
  if date_from.isSome || date_to.isSome then
    let evs := db.events.filter (fun (e : Event) =>
      e.project_id == project.id &&
        boundPred date_from dfInclusive date_to dtInclusive e.datetime)
    let evs :=
      match q with
      | some s =>
        if s != "" then evs.filter (fun (e : Event) => icontains e.message s)
        else evs
      | none => evs
    let group_ids := ((evs.map (fun e => e.group_id)).dedup).take 1000
    (qs.filter (fun g => group_ids.contains g.id), [StorageCall.eventQuery project.id])
  else (qs, [])

/-- Scalar-range and date blocks of `_build_queryset` (lines 129-223), in
source order. -/
def buildRanges (db : DB) (project : Project) (p : BuildParams)
    (qs : List Issue) : List Issue × List StorageCall :=
  let qs := scalarRangeStep p.age_from p.age_from_inclusive p.age_to
    p.age_to_inclusive (fun g => g.first_seen) qs
  let qs := scalarRangeStep p.last_seen_from p.last_seen_from_inclusive
    p.last_seen_to p.last_seen_to_inclusive (fun g => g.last_seen) qs
  let qs := scalarRangeStep p.active_at_from p.active_at_from_inclusive
    p.active_at_to p.active_at_to_inclusive (fun g => g.active_at) qs
  let qs := timesSeenStep p.times_seen qs
  let qs := scalarRangeStep (p.times_seen_lower.map (fun n => (n : Int)))
    p.times_seen_lower_inclusive (p.times_seen_upper.map (fun n => (n : Int)))
    p.times_seen_upper_inclusive (fun g => (g.times_seen : Int)) qs
  dateStep db project p.query p.date_from p.date_from_inclusive p.date_to
    p.date_to_inclusive qs

/-- Tags block of `_build_queryset` (lines 121-127): a truthy tags mapping is
resolved through the tagstore adapter; an empty match set short-circuits with
`queryset.none()`. -/
def applyTagMatches (db : DB) (project : Project) (p : BuildParams)
    (ts : Tags) (matchingIds : List Nat) (qs : List Issue) :
    List Issue × List StorageCall :=
  if matchingIds.isEmpty then
    ([], [StorageCall.tagstoreSearch project.id p.environment_id ts])
  else
    ((buildRanges db project p (qs.filter (fun g => matchingIds.contains g.id))).1,
     StorageCall.tagstoreSearch project.id p.environment_id ts ::
       (buildRanges db project p (qs.filter (fun g => matchingIds.contains g.id))).2)

/-- Tags block of `_build_queryset` (lines 121-127): a truthy tags mapping is
resolved through the tagstore adapter and the matches applied. -/
def buildTags (db : DB) (project : Project) (p : BuildParams)
    (qs : List Issue) : List Issue × List StorageCall :=
  match p.tags with
  | some ts =>
    if ts != [] then
      applyTagMatches db project p ts
        (db.get_group_ids_for_search_filter project.id p.environment_id ts) qs
    else buildRanges db project p qs
  | none => buildRanges db project p qs

/-- First-release block of `_build_queryset` (lines 113-119): a truthy
`first_release` that is the `EMPTY` sentinel returns `queryset.none()`
immediately; a non-empty version string filters on the release join. -/
def buildTail (db : DB) (project : Project) (p : BuildParams)
    (qs : List Issue) : List Issue × List StorageCall :=
  match p.first_release with
  | some FirstReleaseParam.EMPTY => ([], [])
  | some (FirstReleaseParam.version v) =>
    if v != "" then
      buildTags db project p (qs.filter (firstReleasePred db project v))
    else buildTags db project p qs
  | none => buildTags db project p qs

/-- Filters applied before `first_release` (lines 69-111), in source order. -/
def buildHead (db : DB) (project : Project) (p : BuildParams) : List Issue :=
  subscribedStep db project p.subscribed_by
    (assignedStep project p.assigned_to p.unassigned
      (bookmarkedStep project p.bookmarked_by
        (statusStep p.status
          (queryStep p.query
            (db.issues.filter (fun g => g.project_id == project.id))))))

/-- `DjangoSearchBackend._build_queryset` (lines 28-239): the filtered issue
set plus the storage calls the construction performed. -/
def DjangoSearchBackend.build_queryset (db : DB) (project : Project)
    (p : BuildParams) : List Issue × List StorageCall :=
  buildTail db project p (buildHead db project p)

/-- Modelled from the spec: the sort clauses of
`sentry.search.django.constants` are not among the sources.  Per the spec the
rank expression is `last_seen` for `date`, the denormalized priority score for
`priority`, `first_seen` for `new`, `times_seen` for `freq`, and a
dialect-specific generic expression (the score) otherwise. -/
def sortKeyOf (sort_by : String) (g : Issue) : Int :=
  if sort_by == "date" then g.last_seen
  else if sort_by == "priority" then g.score
  else if sort_by == "new" then g.first_seen
  else if sort_by == "freq" then (g.times_seen : Int)
  else g.score

/-- Descending order on the sort key, ties broken by issue id. -/
def issueRankGe (key : Issue → Int) (a b : Issue) : Prop :=
  key b < key a ∨ (key a = key b ∧ b.id ≤ a.id)

instance (key : Issue → Int) : DecidableRel (issueRankGe key) := fun a b => by
  unfold issueRankGe; exact inferInstance

/-- `queryset.order_by(sort_clause)`: descending on the sort column.  Ties are
ordered deterministically by id, the stable secondary key the spec's paginator
contract requires. -/
def orderByDesc (key : Issue → Int) (qs : List Issue) : List Issue :=
  List.insertionSort (issueRankGe key) qs

/-- Modelled from the spec: `sentry.api.paginator` is not among the sources.
Per the spec (section 4.4) a paginator takes the already-ordered plan, resumes
at the cursor position and returns up to `limit` rows. -/
def paginate (sorted : List Issue) (limit : Option Nat) (cursor : Option Nat) :
    List Issue :=
  let rest := sorted.drop (cursor.getD 0)
  match limit with
  | some n => rest.take n
  | none => rest

/-- `DjangoSearchBackend.query` (lines 241-270): build the queryset, order by
the sort clause and paginate (`limit` defaults to 100). -/
def DjangoSearchBackend.query (db : DB) (project : Project) (p : BuildParams) :
    List Issue × List StorageCall :=
  (paginate (orderByDesc (sortKeyOf p.sort_by)
      (DjangoSearchBackend.build_queryset db project p).1)
    (some (p.limit.getD 100)) p.cursor,
   (DjangoSearchBackend.build_queryset db project p).2)

/-- A Python value as passed through the `**kwargs` dictionary of
`EnvironmentDjangoSearchBackend.query`. -/
inductive PyVal
  | pyNone
  | bool (b : Bool)
  | int (n : Int)
  | str (s : String)
  | status (s : GroupStatus)
  | user (u : Nat)
  | release (r : FirstReleaseParam)
deriving DecidableEq, Repr

/-- Python truthiness of an embedded value. -/
def PyVal.truthy : PyVal → Bool
  | PyVal.pyNone => false
  | PyVal.bool b => b
  | PyVal.int n => n != 0
  | PyVal.str s => s != ""
  | PyVal.status _ => true
  | PyVal.user _ => true
  | PyVal.release FirstReleaseParam.EMPTY => true
  | PyVal.release (FirstReleaseParam.version v) => v != ""

def PyVal.asStr : PyVal → String
  | PyVal.str s => s
  | _ => ""

def PyVal.asInt : PyVal → Int
  | PyVal.int n => n
  | PyVal.bool b => if b then 1 else 0
  | _ => 0

def PyVal.userId : PyVal → Option Nat
  | PyVal.user u => some u
  | _ => none

/-- Comparison of a `first_release` parameter against a stored release
version column. -/
def PyVal.matchesReleaseVersion : PyVal → String → Bool
  | PyVal.release (FirstReleaseParam.version v), s => v == s
  | PyVal.str v, s => v == s
  | _, _ => false

/-- A registered filter condition: the callback plus the names of the extra
parameters fetched for it, as built by `condition(callback, fields)`
(lines 281-282). -/
structure Condition (β : Type) where
  cb : List β → PyVal → List PyVal → List β
  extraFields : List String

def condition {β : Type} (cb : List β → PyVal → List PyVal → List β)
    (fields : List String := []) : Condition β :=
  ⟨cb, fields⟩

/-- The parameters dictionary (`kwargs`); absence of a key is the `undefined`
sentinel of line 298. -/
abbrev Params := List (String × PyVal)

/-- The comparison operator of `scalar_condition`: `'gt'` or `'lt'`,
suffixed with `'e'` when the sibling inclusive flag is truthy
(lines 285-295). -/
inductive ScalarOp
  | gt
  | lt
deriving DecidableEq, Repr

def ScalarOp.apply (op : ScalarOp) (inclusive : Bool)
    (fieldValue bound : Int) : Bool :=
  match op, inclusive with
  | ScalarOp.gt, true => bound ≤ fieldValue
  | ScalarOp.gt, false => bound < fieldValue
  | ScalarOp.lt, true => fieldValue ≤ bound
  | ScalarOp.lt, false => fieldValue < bound

/-- `scalar_condition(parameter, field, operator)` (lines 285-295): filter on
`field __gt/__gte/__lt/__lte value`, the inclusive flag arriving as the extra
parameter `'{parameter}_inclusive'`. -/
def scalar_condition {β : Type} (parameter : String) (field : β → Int)
    (operator : ScalarOp) : Condition β :=
  condition
    (fun qs value extras =>
      qs.filter (fun x =>
        operator.apply (extras.headD (PyVal.bool true)).truthy (field x)
          value.asInt))
    [parameter ++ "_inclusive"]

/-- The list comprehension `[parameters[name] for name in extra_parameters]`
(line 312): every extra parameter must be present, otherwise Python raises
`KeyError`, embedded as `none`. -/
def lookupAll (parameters : Params) : List String → Option (List PyVal)
  | [] => some []
  | f :: rest =>
    match parameters.lookup f with
    | none => none
    | some v =>
      match lookupAll parameters rest with
      | none => none
      | some vs => some (v :: vs)

/-- `QueryBuilder.build` (lines 301-315): each handler whose parameter is
present (not the `undefined` sentinel) is applied in declaration order with
the values of its extra parameters; a missing extra parameter is Python's
`KeyError`, embedded as `none`. -/
def QueryBuilder.build {β : Type} (handlers : List (String × Condition β))
    (qs : List β) (parameters : Params) : Option (List β) :=
  match handlers with
  | [] => some qs
  | (name, c) :: rest =>
    match parameters.lookup name with
    | none => QueryBuilder.build rest qs parameters
    | some value =>
      match lookupAll parameters c.extraFields with
      | none => none
      | some extras =>
        QueryBuilder.build rest (c.cb qs value extras) parameters

/-- The `'query'` entry of the base registry (lines 348-352). -/
def query_condition : String × Condition Issue :=
  ("query", condition (fun qs q _ =>
    if q.truthy then
      qs.filter (fun g =>
        icontains g.message q.asStr || icontains g.culprit q.asStr)
    else qs))

/-- The `'status'` entry of the base registry (lines 353-355). -/
def status_condition : String × Condition Issue :=
  ("status", condition (fun qs v _ =>
    qs.filter (fun g => PyVal.status g.status == v)))

/-- The `'bookmarked_by'` entry of the base registry (lines 356-361). -/
def bookmarked_by_condition (project : Project) : String × Condition Issue :=
  ("bookmarked_by", condition (fun qs v _ =>
    qs.filter (fun g =>
      (v.userId).elim false (fun u => g.bookmark_set.contains (project.id, u)))))

/-- The `'assigned_to'` entry of the base registry (lines 362-367). -/
def assigned_to_condition (project : Project) : String × Condition Issue :=
  ("assigned_to", condition (fun qs v _ =>
    qs.filter (fun g =>
      (v.userId).elim false (fun u => g.assignee_set.contains (project.id, u)))))

/-- The `'unassigned'` entry of the base registry (lines 368-372). -/
def unassigned_condition : String × Condition Issue :=
  ("unassigned", condition (fun qs v _ =>
    qs.filter (fun g => g.assignee_set.isEmpty == v.truthy)))

/-- The `'subscribed_by'` entry of the base registry (lines 373-381). -/
def subscribed_by_condition (db : DB) (project : Project) :
    String × Condition Issue :=
  ("subscribed_by", condition (fun qs v _ =>
    qs.filter (fun g =>
      (v.userId).elim false (fun u =>
        db.subscriptions.any (fun s =>
          s.project_id == project.id && s.user_id == u && s.is_active &&
            s.group_id == g.id)))))

/-- The base condition registry of `EnvironmentDjangoSearchBackend.query`
(lines 347-384), in declaration order. -/
def baseConditions (db : DB) (project : Project) :
    List (String × Condition Issue) :=
  [ query_condition,
    status_condition,
    bookmarked_by_condition project,
    assigned_to_condition project,
    unassigned_condition,
    subscribed_by_condition db project,
    ("active_at_from", scalar_condition "active_at_from" (fun g => g.active_at)
      ScalarOp.gt),
    ("active_at_to", scalar_condition "active_at_to" (fun g => g.active_at)
      ScalarOp.lt) ]

/-- The `extra(where=[Group.id = GroupEnvironment.group_id,
GroupEnvironment.environment_id = %s])` join (lines 425-437): each issue
paired with its matching GroupEnvironment rows. -/
def environmentJoin (db : DB) (environment_id : Nat) (qs : List Issue) :
    List (Issue × GroupEnvironment) :=
  qs.flatMap (fun g =>
    (db.groupEnvironments.filter (fun ge =>
      ge.group_id == g.id && ge.environment_id == environment_id)).map
        (fun ge => (g, ge)))

/-- The `first_release` condition of the environment-scoped branch
(lines 405-423): the GroupEnvironment row's first release must be a Release of
the project's organization with the requested version. -/
def envFirstReleaseCondition (db : DB) (project : Project) :
    String × Condition (Issue × GroupEnvironment) :=
  ("first_release", condition (fun qs v _ =>
    qs.filter (fun pr =>
      (pr.2.first_release_id).elim false (fun rid =>
        db.releases.any (fun r =>
          r.id == rid && r.organization_id == project.organization_id &&
            v.matchesReleaseVersion r.version)))))

/-- The per-environment scalar registry applied to the GroupTagValue queryset
(lines 448-457), in declaration order. -/
def gtvConditions : List (String × Condition GroupTagValue) :=
  [ ("age_from", scalar_condition "age_from" (fun t => t.first_seen) ScalarOp.gt),
    ("age_to", scalar_condition "age_to" (fun t => t.first_seen) ScalarOp.lt),
    ("last_seen_from", scalar_condition "last_seen_from" (fun t => t.last_seen)
      ScalarOp.gt),
    ("last_seen_to", scalar_condition "last_seen_to" (fun t => t.last_seen)
      ScalarOp.lt),
    ("times_seen", condition (fun qs v _ =>
      qs.filter (fun t => PyVal.int (t.times_seen : Int) == v))),
    ("times_seen_lower", scalar_condition "times_seen_lower"
      (fun t => (t.times_seen : Int)) ScalarOp.gt),
    ("times_seen_upper", scalar_condition "times_seen_upper"
      (fun t => (t.times_seen : Int)) ScalarOp.lt) ]

/-- The `'first_release'` entry of the non-environment registry
(lines 512-518). -/
def first_release_condition (db : DB) (project : Project) :
    String × Condition Issue :=
  ("first_release", condition (fun qs v _ =>
    qs.filter (fun g =>
      (g.first_release_id).elim false (fun rid =>
        db.releases.any (fun r =>
          r.id == rid && r.organization_id == project.organization_id &&
            v.matchesReleaseVersion r.version)))))

/-- The non-environment condition registry of the `else` branch
(lines 512-527), in declaration order. -/
def noEnvConditions (db : DB) (project : Project) :
    List (String × Condition Issue) :=
  [ first_release_condition db project,
    ("age_from", scalar_condition "age_from" (fun g => g.first_seen) ScalarOp.gt),
    ("age_to", scalar_condition "age_to" (fun g => g.first_seen) ScalarOp.lt),
    ("last_seen_from", scalar_condition "last_seen_from" (fun g => g.last_seen)
      ScalarOp.gt),
    ("last_seen_to", scalar_condition "last_seen_to" (fun g => g.last_seen)
      ScalarOp.lt),
    ("times_seen", condition (fun qs v _ =>
      qs.filter (fun g => PyVal.int (g.times_seen : Int) == v))),
    ("times_seen_lower", scalar_condition "times_seen_lower"
      (fun g => (g.times_seen : Int)) ScalarOp.gt),
    ("times_seen_upper", scalar_condition "times_seen_upper"
      (fun g => (g.times_seen : Int)) ScalarOp.lt) ]

/-- The symbolic value of the `sort_key` SQL expression of `sort_strategies`
(lines 273-278), evaluated against a GroupTagValue row's columns. -/
inductive Score
  | priority (times_seen : Nat) (last_seen : Int)
  | date (last_seen : Int)
  | new (first_seen : Int)
  | freq (times_seen : Nat)
deriving DecidableEq, Repr

/-- Python `int()` truncation toward zero on a real. -/
noncomputable def pyInt (x : ℝ) : ℤ :=
  if 0 ≤ x then ⌊x⌋ else ⌈x⌉

/-- Real value of a sort expression: `log(times_seen) * 600 +
last_seen::abstime::int` for `priority` (Postgres `log` is base 10), the bare
column otherwise. -/
noncomputable def Score.toReal : Score → ℝ
  | Score.priority ts ls => Real.logb 10 (ts : ℝ) * 600 + (ls : ℝ)
  | Score.date ls => (ls : ℝ)
  | Score.new fs => (fs : ℝ)
  | Score.freq ts => (ts : ℝ)

/-- The cursor-score conversion of `sort_strategies`: `int` for `priority` and
`freq`, `int(to_timestamp(score) * 1000)` for the datetime sorts. -/
noncomputable def Score.toCursorScore : Score → Int
  | Score.priority ts ls => pyInt (Real.logb 10 (ts : ℝ) * 600 + (ls : ℝ))
  | Score.date ls => ls * 1000
  | Score.new fs => fs * 1000
  | Score.freq ts => (ts : Int)

/-- `sort_strategies` (lines 273-278): sort expression and cursor-score
conversion per sort mode; an unknown mode is a `KeyError`, embedded as
`none`. -/
noncomputable def sort_strategies (sort_by : String) :
    Option ((GroupTagValue → Score) × (Score → Int)) :=
  if sort_by == "priority" then
    some (fun t => Score.priority t.times_seen t.last_seen, Score.toCursorScore)
  else if sort_by == "date" then
    some (fun t => Score.date t.last_seen, Score.toCursorScore)
  else if sort_by == "new" then
    some (fun t => Score.new t.first_seen, Score.toCursorScore)
  else if sort_by == "freq" then
    some (fun t => Score.freq t.times_seen, Score.toCursorScore)
  else none

/-- Python `dict(pairs)`: later pairs overwrite earlier values of the same
key. -/
def dictInsert {α : Type} (l : List (Nat × α)) (kv : Nat × α) :
    List (Nat × α) :=
  if l.any (fun p => p.1 == kv.1) then
    l.map (fun p => if p.1 == kv.1 then (p.1, kv.2) else p)
  else l ++ [kv]

def dictOf {α : Type} (l : List (Nat × α)) : List (Nat × α) :=
  l.foldl dictInsert []

/-- Match set of one generic tag filter restricted to the current candidates
(`group_id__in=candidates.keys()`, lines 476-489): tag-key existence for the
`ANY` wildcard, a concrete GroupTagValue row otherwise. -/
def tagMatchIds (db : DB) (key : String) (value : TagValue)
    (candidateIds : List Nat) : List Nat :=
  match value with
  | TagValue.any =>
    (db.groupTagKeys.filter (fun t =>
      t.key == key && candidateIds.contains t.group_id)).map (fun t => t.group_id)
  | TagValue.val v =>
    (db.groupTagValues.filter (fun t =>
      t.key == key && t.value == v && candidateIds.contains t.group_id)).map
        (fun t => t.group_id)

/-- Unrestricted membership of an issue id in one tag filter's match set. -/
def tagMatches (db : DB) (key : String) (value : TagValue) (id : Nat) : Bool :=
  match value with
  | TagValue.any => db.groupTagKeys.any (fun t => t.key == key && t.group_id == id)
  | TagValue.val v => db.groupTagValues.any (fun t =>
      t.key == key && t.value == v && t.group_id == id)

/-- The in-memory tag intersection loop (lines 476-492): for each remaining
tag filter, delete every candidate whose id is not in that filter's match
set. -/
def intersectTagFilters {α : Type} (db : DB) (candidates : List (Nat × α))
    (tags : Tags) : List (Nat × α) :=
  tags.foldl (fun cands kv =>
    cands.filter (fun c =>
      (tagMatchIds db kv.1 kv.2 (cands.map (fun x => x.1))).contains c.1))
    candidates

/-- Descending lexicographic order on (cursor score, id), the order of
`sorted(..., reverse=True)` over the score/id pairs. -/
def cursorRankGe (a b : Int × Nat) : Prop :=
  b.1 < a.1 ∨ (a.1 = b.1 ∧ b.2 ≤ a.2)

instance : DecidableRel cursorRankGe := fun a b => by
  unfold cursorRankGe; exact inferInstance

/-- Modelled from the spec: `sentry.api.paginator.SequencePaginator` is not
among the sources.  Per the spec (section 4.4) it sorts the (score, id) pairs
descending by score with ties broken by id, then applies the offset/limit
cursor contract in memory. -/
def SequencePaginator.get_result (pairs : List (Int × Nat))
    (limit cursor : Option Nat) : List Nat :=
  match limit with
  | some n =>
    ((((List.insertionSort cursorRankGe pairs).drop (cursor.getD 0))).map
      (fun p => p.2)).take n
  | none =>
    (((List.insertionSort cursorRankGe pairs).drop (cursor.getD 0))).map
      (fun p => p.2)

/-- Failure modes of `EnvironmentDjangoSearchBackend.query`: a failed
`assert`, a dictionary `KeyError`, `'environment' in None` (`TypeError`), and
`Environment.objects.get` finding no row. -/
inductive QueryError
  | assertionError
  | keyError
  | typeError
  | doesNotExist
deriving DecidableEq, Repr

/-- Result of a completed environment-backend call: the page of issues, the
recorded storage calls, and the final state of the caller's `tags` mapping
(the backend mutates it in place via `tags.pop('environment')`). -/
structure EnvQueryResult where
  results : List Issue
  calls : List StorageCall
  tagsAfter : Option Tags
deriving DecidableEq, Repr

/-- The environment-scoped branch (lines 393-510): assert the `environment`
tag resolves to the given environment id, join GroupEnvironment, project the
per-environment candidate scores from GroupTagValue, intersect the remaining
tag filters in memory, paginate the scored candidates and hydrate the ids
(dropping ids that no longer resolve). -/
def EnvironmentDjangoSearchBackend.queryEnvScoped (db : DB) (project : Project)
    (strategy : (GroupTagValue → Score) × (Score → Int)) (tagsMap : Tags)
    (envId : Nat) (queryset : List Issue) (limit cursor : Option Nat)
    (kwargs : Params) : Except QueryError EnvQueryResult :=
  match tagsMap.lookup "environment" with
  | none => Except.error QueryError.assertionError
  | some envName =>
    match db.environments.find? (fun e =>
        e.project_id == project.id && envName.matchesValue e.name) with
    | none => Except.error QueryError.doesNotExist
    | some env =>
      if env.id != envId then Except.error QueryError.assertionError
      else
        match QueryBuilder.build [envFirstReleaseCondition db project]
            (environmentJoin db envId queryset) kwargs with
        | none => Except.error QueryError.keyError
        | some joined =>
          let ids := joined.map (fun pr => pr.1.id)
          let remainingTags := tagsMap.filter (fun kv => kv.1 != "environment")
          match QueryBuilder.build gtvConditions
              (db.groupTagValues.filter (fun t =>
                t.project_id == project.id && t.key == "environment" &&
                  envName.matchesValue t.value && ids.contains t.group_id))
              kwargs with
          | none => Except.error QueryError.keyError
          | some gtvRows =>
            let candidates := dictOf (gtvRows.map (fun t => (t.group_id, strategy.1 t)))
            let finalCandidates := intersectTagFilters db candidates remainingTags
            let page := SequencePaginator.get_result
              (finalCandidates.map (fun c => (strategy.2 c.2, c.1))) limit cursor
            Except.ok
              ⟨(page.map (fun i => db.issues.find? (fun g => g.id == i))).reduceOption,
               [], some remainingTags⟩

/-- The non-environment branch (lines 511-580): apply the remaining registry,
resolve a truthy tags mapping through the tagstore adapter (an empty match
set short-circuits with `queryset.none()`), then order and paginate. -/
def EnvironmentDjangoSearchBackend.queryNoEnv (db : DB) (project : Project)
    (sort_by : String) (tags : Option Tags) (queryset : List Issue)
    (limit cursor : Option Nat) (kwargs : Params) :
    Except QueryError EnvQueryResult :=
  match QueryBuilder.build (noEnvConditions db project) queryset kwargs with
  | none => Except.error QueryError.keyError
  | some queryset =>
    match tags with
    | some ts =>
      if ts != [] then
        let matchingIds := db.get_group_ids_for_search_filter project.id none ts
        if matchingIds.isEmpty then
          Except.ok ⟨[], [StorageCall.tagstoreSearch project.id none ts], tags⟩
        else
          Except.ok
            ⟨paginate (orderByDesc (sortKeyOf sort_by)
                (queryset.filter (fun g => matchingIds.contains g.id))) limit cursor,
             [StorageCall.tagstoreSearch project.id none ts], tags⟩
      else
        Except.ok ⟨paginate (orderByDesc (sortKeyOf sort_by) queryset) limit cursor,
          [], tags⟩
    | none =>
      Except.ok ⟨paginate (orderByDesc (sortKeyOf sort_by) queryset) limit cursor,
        [], tags⟩

/-- `EnvironmentDjangoSearchBackend.query` (lines 327-580).  The first guard
is the source's `assert 'date_from' not in kwargs and 'date_from' not in
kwargs` (line 343), embedded verbatim with its duplicated conjunct; then the
sort strategy is looked up, the base registry is applied to the
status-excluded project queryset, and the call branches on
`environment_id`. -/
noncomputable def EnvironmentDjangoSearchBackend.query (db : DB)
    (project : Project) (tags : Option Tags) (sort_by : String)
    (environment_id : Option Nat) (cursor limit : Option Nat)
    (kwargs : Params) : Except QueryError EnvQueryResult :=
  if (kwargs.lookup "date_from").isNone && (kwargs.lookup "date_from").isNone then
    match sort_strategies sort_by with
    | none => Except.error QueryError.keyError
    | some strategy =>
      match QueryBuilder.build (baseConditions db project)
          ((db.issues.filter (fun g => g.project_id == project.id)).filter
            (fun g => !(defaultExcludedStatuses.contains g.status))) kwargs with
      | none => Except.error QueryError.keyError
      | some queryset =>
        match environment_id with
        | some envId =>
          match tags with
          | none => Except.error QueryError.typeError
          | some tagsMap =>
            EnvironmentDjangoSearchBackend.queryEnvScoped db project strategy
              tagsMap envId queryset limit cursor kwargs
        | none =>
          EnvironmentDjangoSearchBackend.queryNoEnv db project sort_by tags
            queryset limit cursor kwargs
  else Except.error QueryError.assertionError

/-- A condition whose callback is a pure filter for every value: the shape of
every handler registered in this module. -/
def IsFilter {β : Type} (c : Condition β) : Prop :=
  ∀ (v : PyVal) (ex : List PyVal), ∃ p : β → Bool,
    ∀ qs : List β, c.cb qs v ex = qs.filter p

/-! Concrete inputs used by the closed theorems. -/

def exProject : Project := ⟨1, 10⟩

def exIssue1 : Issue :=
  { id := 1, project_id := 1, status := GroupStatus.unresolved,
    message := "boom", culprit := "app.main", first_seen := 100,
    last_seen := 200, active_at := 150, times_seen := 3, score := 7,
    first_release_id := none, assignee_set := [(1, 7)], bookmark_set := [] }

def exIssue2 : Issue :=
  { id := 2, project_id := 1, status := GroupStatus.pending_deletion,
    message := "old", culprit := "app.old", first_seen := 50,
    last_seen := 60, active_at := 55, times_seen := 1, score := 1,
    first_release_id := none, assignee_set := [], bookmark_set := [] }

def exDB : DB :=
  { issues := [exIssue1, exIssue2], events := [], releases := [],
    subscriptions := [], environments := [⟨5, 1, "production"⟩],
    groupEnvironments := [⟨1, 5, none⟩],
    groupTagValues := [⟨1, 1, "environment", "production", 100, 200, 3⟩],
    groupTagKeys := [],
    get_group_ids_for_search_filter := fun _ _ _ => [] }

def c1params : BuildParams := { status := some GroupStatus.unresolved }

def c1kwargs : Params := [("status", PyVal.status GroupStatus.unresolved)]

def c3params : BuildParams :=
  { assigned_to := some 7, unassigned := some true }

def c3kwargs : Params :=
  [("assigned_to", PyVal.user 7), ("unassigned", PyVal.bool false)]

def c4tags : Tags := [("browser", TagValue.val "chrome")]

def c4params : BuildParams :=
  { tags := some c4tags, first_release := some FirstReleaseParam.EMPTY,
    date_from := some 0 }

def c4kwargs : Params :=
  [("first_release", PyVal.release FirstReleaseParam.EMPTY)]

def c4res : EnvQueryResult :=
  ⟨[], [StorageCall.tagstoreSearch 1 none c4tags], some c4tags⟩

def c5params : BuildParams :=
  { tags := some c4tags, date_from := some 0 }

def c5res : EnvQueryResult :=
  ⟨[], [StorageCall.tagstoreSearch 1 none c4tags], some c4tags⟩

def c7db : DB :=
  { issues := [], events := [], releases := [], subscriptions := [],
    environments := [], groupEnvironments := [],
    groupTagValues := [⟨1, 1, "a", "x", 0, 0, 0⟩, ⟨1, 2, "a", "x", 0, 0, 0⟩,
      ⟨1, 2, "b", "y", 0, 0, 0⟩, ⟨1, 3, "b", "y", 0, 0, 0⟩],
    groupTagKeys := [⟨1, "k"⟩],
    get_group_ids_for_search_filter := fun _ _ _ => [] }

def c10tags : Tags := [("environment", TagValue.val "production")]

def c10res : EnvQueryResult := ⟨[exIssue1], [], some []⟩

def c8perm : List (String × Condition Issue) :=
  [ status_condition,
    query_condition,
    bookmarked_by_condition exProject,
    assigned_to_condition exProject,
    unassigned_condition,
    subscribed_by_condition exDB exProject,
    ("active_at_from", scalar_condition "active_at_from" (fun g => g.active_at)
      ScalarOp.gt),
    ("active_at_to", scalar_condition "active_at_to" (fun g => g.active_at)
      ScalarOp.lt) ]

/-! ### Lemmas about `QueryBuilder.build` -/

lemma QueryBuilder.build_append {β : Type} (l₁ l₂ : List (String × Condition β))
    (qs : List β) (ps : Params) :
    QueryBuilder.build (l₁ ++ l₂) qs ps =
      (QueryBuilder.build l₁ qs ps).bind (fun q => QueryBuilder.build l₂ q ps) := by
  induction l₁ generalizing qs with
  | nil => simp [QueryBuilder.build]
  | cons hd rest ih =>
    obtain ⟨name, c⟩ := hd
    cases hl : ps.lookup name with
    | none => simp [QueryBuilder.build, hl, ih]
    | some v =>
      cases hex : lookupAll ps c.extraFields with
      | none => simp [QueryBuilder.build, hl, hex]
      | some ex => simp [QueryBuilder.build, hl, hex, ih]

lemma QueryBuilder.build_subset {β : Type} {handlers : List (String × Condition β)}
    (hf : ∀ h ∈ handlers, IsFilter h.2) {qs r : List β} {ps : Params}
    (hb : QueryBuilder.build handlers qs ps = some r) :
    ∀ x ∈ r, x ∈ qs := by
  induction handlers generalizing qs with
  | nil =>
    simp only [QueryBuilder.build, Option.some.injEq] at hb
    subst hb; exact fun x hx => hx
  | cons hd rest ih =>
    obtain ⟨name, c⟩ := hd
    simp only [QueryBuilder.build] at hb
    cases hl : ps.lookup name with
    | none =>
      rw [hl] at hb
      exact ih (fun h hm => hf h (List.mem_cons_of_mem _ hm)) hb
    | some v =>
      rw [hl] at hb
      cases hex : lookupAll ps c.extraFields with
      | none => rw [hex] at hb; exact absurd hb (by simp)
      | some ex =>
        rw [hex] at hb
        intro x hx
        have hsub := ih (fun h hm => hf h (List.mem_cons_of_mem _ hm)) hb x hx
        obtain ⟨p, hp⟩ := hf ⟨name, c⟩ (List.mem_cons_self _ _) v ex
        rw [hp qs] at hsub
        exact (List.mem_filter.mp hsub).1

lemma QueryBuilder.build_skip {β : Type} (l₁ l₂ : List (String × Condition β))
    (name : String) (c : Condition β) (qs : List β) (ps : Params)
    (h : ps.lookup name = none) :
    QueryBuilder.build (l₁ ++ (name, c) :: l₂) qs ps =
      QueryBuilder.build (l₁ ++ l₂) qs ps := by
  induction l₁ generalizing qs with
  | nil => simp [QueryBuilder.build, h]
  | cons hd rest ih =>
    obtain ⟨n, c'⟩ := hd
    simp only [List.cons_append, QueryBuilder.build]
    cases hl : ps.lookup n with
    | none => exact ih qs
    | some v =>
      cases hex : lookupAll ps c'.extraFields with
      | none => rfl
      | some ex => exact ih _

lemma QueryBuilder.build_perm {β : Type} {hs hs' : List (String × Condition β)}
    (hperm : hs.Perm hs') :
    (∀ h ∈ hs, IsFilter h.2) →
    ∀ qs ps, QueryBuilder.build hs qs ps = QueryBuilder.build hs' qs ps := by
  induction hperm with
  | nil => intro _ qs ps; rfl
  | @cons x l₁ l₂ _ ih =>
    intro hf qs ps
    obtain ⟨name, c⟩ := x
    simp only [QueryBuilder.build]
    cases hl : ps.lookup name with
    | none => exact ih (fun h hm => hf h (List.mem_cons_of_mem _ hm)) qs ps
    | some v =>
      cases hex : lookupAll ps c.extraFields with
      | none => rfl
      | some ex => exact ih (fun h hm => hf h (List.mem_cons_of_mem _ hm)) _ ps
  | @swap x y l =>
    intro hf qs ps
    obtain ⟨n₁, c₁⟩ := x
    obtain ⟨n₂, c₂⟩ := y
    simp only [QueryBuilder.build]
    cases h₂ : ps.lookup n₂ with
    | none =>
      cases h₁ : ps.lookup n₁ with
      | none => rfl
      | some v₁ =>
        cases hex₁ : lookupAll ps c₁.extraFields with
        | none => rfl
        | some ex₁ => rfl
    | some v₂ =>
      cases hex₂ : lookupAll ps c₂.extraFields with
      | none =>
        cases h₁ : ps.lookup n₁ with
        | none => rfl
        | some v₁ =>
          cases hex₁ : lookupAll ps c₁.extraFields with
          | none => rfl
          | some ex₁ => rfl
      | some ex₂ =>
        cases h₁ : ps.lookup n₁ with
        | none => rfl
        | some v₁ =>
          cases hex₁ : lookupAll ps c₁.extraFields with
          | none => rfl
          | some ex₁ =>
            obtain ⟨p₁, hp₁⟩ := hf ⟨n₁, c₁⟩ (by simp) v₁ ex₁
            obtain ⟨p₂, hp₂⟩ := hf ⟨n₂, c₂⟩ (by simp) v₂ ex₂
            have hcomm : c₁.cb (c₂.cb qs v₂ ex₂) v₁ ex₁ =
                c₂.cb (c₁.cb qs v₁ ex₁) v₂ ex₂ := by
              rw [hp₂ qs, hp₁, hp₁ qs, hp₂, List.filter_filter, List.filter_filter]
              exact List.filter_congr (fun a _ => by rw [Bool.and_comm])
            exact congrArg (fun z => QueryBuilder.build l z ps) hcomm
  | trans p₁ _ ih₁ ih₂ =>
    intro hf qs ps
    rw [ih₁ hf qs ps, ih₂ (fun h hm => hf h (p₁.mem_iff.mpr hm)) qs ps]

lemma QueryBuilder.build_applied {β : Type} {l₁ l₂ : List (String × Condition β)}
    {name : String} {c : Condition β} {qs r : List β} {ps : Params}
    {v : PyVal} {ex : List PyVal} {p : β → Bool}
    (hf₂ : ∀ h ∈ l₂, IsFilter h.2)
    (hv : ps.lookup name = some v)
    (hex : lookupAll ps c.extraFields = some ex)
    (hcb : ∀ qs' : List β, c.cb qs' v ex = qs'.filter p)
    (hb : QueryBuilder.build (l₁ ++ (name, c) :: l₂) qs ps = some r) :
    ∀ x ∈ r, p x = true := by
  rw [QueryBuilder.build_append] at hb
  cases hq : QueryBuilder.build l₁ qs ps with
  | none => rw [hq] at hb; simp at hb
  | some q₁ =>
    rw [hq] at hb
    simp only [Option.some_bind] at hb
    simp only [QueryBuilder.build, hv, hex] at hb
    intro x hx
    have hsub := QueryBuilder.build_subset hf₂ hb x hx
    rw [hcb q₁] at hsub
    exact (List.mem_filter.mp hsub).2

/-! ### The handler registries consist of pure filters -/

lemma isFilter_scalar_condition {β : Type} (parameter : String)
    (field : β → Int) (op : ScalarOp) :
    IsFilter (scalar_condition parameter field op) := by
  intro v ex
  exact ⟨_, fun qs => rfl⟩

lemma isFilter_query_condition : IsFilter query_condition.2 := by
  intro v ex
  by_cases ht : v.truthy
  · refine ⟨fun g => icontains g.message v.asStr || icontains g.culprit v.asStr,
      fun qs => ?_⟩
    simp [query_condition, condition, ht]
  · refine ⟨fun _ => true, fun qs => ?_⟩
    simp [query_condition, condition, ht, List.filter_true]

lemma isFilter_status_condition : IsFilter status_condition.2 :=
  fun _ _ => ⟨_, fun _ => rfl⟩

lemma isFilter_bookmarked_by_condition (project : Project) :
    IsFilter (bookmarked_by_condition project).2 :=
  fun _ _ => ⟨_, fun _ => rfl⟩

lemma isFilter_assigned_to_condition (project : Project) :
    IsFilter (assigned_to_condition project).2 :=
  fun _ _ => ⟨_, fun _ => rfl⟩

lemma isFilter_unassigned_condition : IsFilter unassigned_condition.2 :=
  fun _ _ => ⟨_, fun _ => rfl⟩

lemma isFilter_subscribed_by_condition (db : DB) (project : Project) :
    IsFilter (subscribed_by_condition db project).2 :=
  fun _ _ => ⟨_, fun _ => rfl⟩

lemma isFilter_first_release_condition (db : DB) (project : Project) :
    IsFilter (first_release_condition db project).2 :=
  fun _ _ => ⟨_, fun _ => rfl⟩

lemma baseConditions_filters (db : DB) (project : Project) :
    ∀ h ∈ baseConditions db project, IsFilter h.2 := by
  intro h hm
  simp only [baseConditions, List.mem_cons, List.not_mem_nil, or_false] at hm
  rcases hm with h1 | h2 | h3 | h4 | h5 | h6 | h7 | h8
  · subst h1; exact isFilter_query_condition
  · subst h2; exact isFilter_status_condition
  · subst h3; exact isFilter_bookmarked_by_condition project
  · subst h4; exact isFilter_assigned_to_condition project
  · subst h5; exact isFilter_unassigned_condition
  · subst h6; exact isFilter_subscribed_by_condition db project
  · subst h7; exact isFilter_scalar_condition _ _ _
  · subst h8; exact isFilter_scalar_condition _ _ _

lemma noEnvConditions_filters (db : DB) (project : Project) :
    ∀ h ∈ noEnvConditions db project, IsFilter h.2 := by
  intro h hm
  simp only [noEnvConditions, List.mem_cons, List.not_mem_nil, or_false] at hm
  rcases hm with h1 | h2 | h3 | h4 | h5 | h6 | h7 | h8
  · subst h1; exact isFilter_first_release_condition db project
  · subst h2; exact isFilter_scalar_condition _ _ _
  · subst h3; exact isFilter_scalar_condition _ _ _
  · subst h4; exact isFilter_scalar_condition _ _ _
  · subst h5; exact isFilter_scalar_condition _ _ _
  · subst h6; exact fun v ex => ⟨_, fun qs => rfl⟩
  · subst h7; exact isFilter_scalar_condition _ _ _
  · subst h8; exact isFilter_scalar_condition _ _ _

lemma gtvConditions_filters : ∀ h ∈ gtvConditions, IsFilter h.2 := by
  intro h hm
  simp only [gtvConditions, List.mem_cons, List.not_mem_nil, or_false] at hm
  rcases hm with h1 | h2 | h3 | h4 | h5 | h6 | h7
  · subst h1; exact isFilter_scalar_condition _ _ _
  · subst h2; exact isFilter_scalar_condition _ _ _
  · subst h3; exact isFilter_scalar_condition _ _ _
  · subst h4; exact isFilter_scalar_condition _ _ _
  · subst h5; exact fun v ex => ⟨_, fun qs => rfl⟩
  · subst h6; exact isFilter_scalar_condition _ _ _
  · subst h7; exact isFilter_scalar_condition _ _ _

lemma envFirstReleaseCondition_filters (db : DB) (project : Project) :
    ∀ h ∈ [envFirstReleaseCondition db project], IsFilter h.2 := by
  intro h hm
  simp only [List.mem_singleton] at hm
  subst hm
  exact fun v ex => ⟨_, fun qs => rfl⟩

/-! ### Membership lemmas for the plain backend -/

lemma mem_queryStep {q : Option String} {qs : List Issue} {g : Issue}
    (h : g ∈ queryStep q qs) : g ∈ qs := by
  unfold queryStep at h
  split at h
  · split at h
    · exact (List.mem_filter.mp h).1
    · exact h
  · exact h

lemma mem_statusStep {st : Option GroupStatus} {qs : List Issue} {g : Issue}
    (h : g ∈ statusStep st qs) :
    g ∈ qs ∧ (st = none → g.status ∉ defaultExcludedStatuses) ∧
      (∀ s, st = some s → g.status = s) := by
  cases st with
  | none =>
    have hm := List.mem_filter.mp h
    refine ⟨hm.1, fun _ => ?_, ?_⟩
    · simpa using hm.2
    · intro s hs; exact absurd hs (by simp)
  | some s =>
    have hm := List.mem_filter.mp h
    refine ⟨hm.1, ?_, ?_⟩
    · intro h0; exact absurd h0 (by simp)
    · intro s' hs'
      have he : s = s' := by injection hs'
      subst he
      simpa using hm.2

lemma mem_bookmarkedStep {project : Project} {u : Option Nat} {qs : List Issue}
    {g : Issue} (h : g ∈ bookmarkedStep project u qs) : g ∈ qs := by
  cases u with
  | none => exact h
  | some user => exact (List.mem_filter.mp h).1

lemma mem_assignedStep {project : Project} {a : Option Nat} {u : Option Bool}
    {qs : List Issue} {g : Issue} (h : g ∈ assignedStep project a u qs) :
    g ∈ qs ∧ (∀ us, a = some us → (project.id, us) ∈ g.assignee_set) ∧
      (a = none → ∀ b, u = some b → g.assignee_set.isEmpty = b) := by
  cases a with
  | some user =>
    have hm := List.mem_filter.mp h
    refine ⟨hm.1, ?_, ?_⟩
    · intro us hus
      have he : user = us := by injection hus
      subst he
      simpa using hm.2
    · intro h0; exact absurd h0 (by simp)
  | none =>
    cases u with
    | none =>
      refine ⟨h, ?_, ?_⟩
      · intro us hus; exact absurd hus (by simp)
      · intro _ b hb; exact absurd hb (by simp)
    | some b =>
      have hm := List.mem_filter.mp h
      refine ⟨hm.1, ?_, ?_⟩
      · intro us hus; exact absurd hus (by simp)
      · intro _ b' hb'
        have he : b = b' := by injection hb'
        subst he
        simpa using hm.2

lemma mem_subscribedStep {db : DB} {project : Project} {u : Option Nat}
    {qs : List Issue} {g : Issue} (h : g ∈ subscribedStep db project u qs) :
    g ∈ qs := by
  cases u with
  | none => exact h
  | some user => exact (List.mem_filter.mp h).1

lemma mem_scalarRangeStep {lower : Option Int} {li : Bool} {upper : Option Int}
    {ui : Bool} {field : Issue → Int} {qs : List Issue} {g : Issue}
    (h : g ∈ scalarRangeStep lower li upper ui field qs) : g ∈ qs := by
  unfold scalarRangeStep at h
  split at h
  · exact (List.mem_filter.mp h).1
  · exact h

lemma mem_timesSeenStep {t : Option Nat} {qs : List Issue} {g : Issue}
    (h : g ∈ timesSeenStep t qs) : g ∈ qs := by
  cases t with
  | none => exact h
  | some n => exact (List.mem_filter.mp h).1

lemma mem_dateStep {db : DB} {project : Project} {q : Option String}
    {df : Option Int} {dfi : Bool} {dt : Option Int} {dti : Bool}
    {qs : List Issue} {g : Issue}
    (h : g ∈ (dateStep db project q df dfi dt dti qs).1) : g ∈ qs := by
  unfold dateStep at h
  split at h
  · exact (List.mem_filter.mp h).1
  · exact h

lemma mem_buildRanges {db : DB} {project : Project} {p : BuildParams}
    {qs : List Issue} {g : Issue} (h : g ∈ (buildRanges db project p qs).1) :
    g ∈ qs := by
  unfold buildRanges at h
  exact mem_scalarRangeStep (mem_scalarRangeStep (mem_scalarRangeStep
    (mem_timesSeenStep (mem_scalarRangeStep (mem_dateStep h)))))

lemma mem_applyTagMatches {db : DB} {project : Project} {p : BuildParams}
    {ts : Tags} {mids : List Nat} {qs : List Issue} {g : Issue}
    (h : g ∈ (applyTagMatches db project p ts mids qs).1) :
    g ∈ qs ∧ g.id ∈ mids := by
  unfold applyTagMatches at h
  split at h
  · simp at h
  · have hm := List.mem_filter.mp (mem_buildRanges h)
    exact ⟨hm.1, by simpa using hm.2⟩

lemma mem_buildTags {db : DB} {project : Project} {p : BuildParams}
    {qs : List Issue} {g : Issue} (h : g ∈ (buildTags db project p qs).1) :
    g ∈ qs := by
  unfold buildTags at h
  split at h
  · split at h
    · exact (mem_applyTagMatches h).1
    · exact mem_buildRanges h
  · exact mem_buildRanges h

lemma mem_buildTags_tags {db : DB} {project : Project} {p : BuildParams}
    {qs : List Issue} {g : Issue} {ts : Tags}
    (hts : p.tags = some ts) (hne : ts ≠ [])
    (h : g ∈ (buildTags db project p qs).1) :
    g.id ∈ db.get_group_ids_for_search_filter project.id p.environment_id ts := by
  unfold buildTags at h
  rw [hts] at h
  simp only [if_pos (show (ts != []) = true by simpa using hne)] at h
  exact (mem_applyTagMatches h).2

lemma mem_buildTail {db : DB} {project : Project} {p : BuildParams}
    {qs : List Issue} {g : Issue} (h : g ∈ (buildTail db project p qs).1) :
    g ∈ qs := by
  unfold buildTail at h
  split at h
  · simp at h
  · split at h
    · exact (List.mem_filter.mp (mem_buildTags h)).1
    · exact mem_buildTags h
  · exact mem_buildTags h

lemma mem_buildHead {db : DB} {project : Project} {p : BuildParams} {g : Issue}
    (h : g ∈ buildHead db project p) :
    g ∈ db.issues ∧ g.project_id = project.id ∧
      (p.status = none → g.status ∉ defaultExcludedStatuses) ∧
      (∀ s, p.status = some s → g.status = s) ∧
      (∀ us, p.assigned_to = some us → (project.id, us) ∈ g.assignee_set) ∧
      (p.assigned_to = none → ∀ b, p.unassigned = some b →
        g.assignee_set.isEmpty = b) := by
  unfold buildHead at h
  have h1 := mem_subscribedStep h
  have h2 := mem_assignedStep h1
  have h3 := mem_bookmarkedStep h2.1
  have h4 := mem_statusStep h3
  have h5 := mem_queryStep h4.1
  have h6 := List.mem_filter.mp h5
  exact ⟨h6.1, by simpa using h6.2, h4.2.1, h4.2.2, h2.2.1, h2.2.2⟩

lemma mem_build_queryset {db : DB} {project : Project} {p : BuildParams}
    {g : Issue} (h : g ∈ (DjangoSearchBackend.build_queryset db project p).1) :
    g ∈ buildHead db project p := by
  exact mem_buildTail h

lemma mem_paginate {sorted : List Issue} {limit cursor : Option Nat} {g : Issue}
    (h : g ∈ paginate sorted limit cursor) : g ∈ sorted := by
  unfold paginate at h
  split at h
  · exact List.mem_of_mem_drop (List.mem_of_mem_take h)
  · exact List.mem_of_mem_drop h

lemma mem_orderByDesc {key : Issue → Int} {qs : List Issue} {g : Issue}
    (h : g ∈ orderByDesc key qs) : g ∈ qs :=
  (List.perm_insertionSort (issueRankGe key) qs).subset h

lemma mem_django_query {db : DB} {project : Project} {p : BuildParams}
    {g : Issue} (h : g ∈ (DjangoSearchBackend.query db project p).1) :
    g ∈ (DjangoSearchBackend.build_queryset db project p).1 := by
  unfold DjangoSearchBackend.query at h
  have h' : g ∈ paginate (orderByDesc (sortKeyOf p.sort_by)
      (DjangoSearchBackend.build_queryset db project p).1)
      (some (p.limit.getD 100)) p.cursor := h
  exact mem_orderByDesc (mem_paginate h')

/-! ### Membership lemmas for the environment backend -/

lemma mem_environmentJoin {db : DB} {envId : Nat} {qs : List Issue}
    {pr : Issue × GroupEnvironment} (h : pr ∈ environmentJoin db envId qs) :
    pr.1 ∈ qs := by
  unfold environmentJoin at h
  obtain ⟨g, hg, hmem⟩ := List.mem_flatMap.mp h
  obtain ⟨ge, _, he⟩ := List.mem_map.mp hmem
  subst he
  exact hg

lemma intersectTagFilters_subset {α : Type} (db : DB) (tags : Tags) :
    ∀ (cands : List (Nat × α)) (c : Nat × α),
      c ∈ intersectTagFilters db cands tags → c ∈ cands := by
  induction tags with
  | nil => intro cands c h; exact h
  | cons kv rest ih =>
    intro cands c h
    have h' : c ∈ intersectTagFilters db
        (cands.filter (fun c =>
          (tagMatchIds db kv.1 kv.2 (cands.map (fun x => x.1))).contains c.1))
        rest := h
    exact (List.mem_filter.mp (ih _ c h')).1

lemma dictInsert_keys {α : Type} {l : List (Nat × α)} {kv : Nat × α} {x : Nat}
    (h : x ∈ (dictInsert l kv).map Prod.fst) :
    x ∈ l.map Prod.fst ∨ x = kv.1 := by
  unfold dictInsert at h
  split at h
  · obtain ⟨c, hc, he⟩ := List.mem_map.mp h
    obtain ⟨p, hp, hpe⟩ := List.mem_map.mp hc
    by_cases hb : (p.1 == kv.1) = true
    · rw [if_pos hb] at hpe
      subst hpe
      subst he
      exact Or.inl (by simpa using List.mem_map_of_mem Prod.fst hp)
    · rw [if_neg hb] at hpe
      subst hpe
      subst he
      exact Or.inl (List.mem_map_of_mem Prod.fst hp)
  · rw [List.map_append] at h
    rcases List.mem_append.mp h with h1 | h2
    · exact Or.inl h1
    · simp at h2
      exact Or.inr h2

lemma dictOf_keys_aux {α : Type} (l : List (Nat × α)) :
    ∀ (acc : List (Nat × α)) (x : Nat),
      x ∈ (l.foldl dictInsert acc).map Prod.fst →
        x ∈ acc.map Prod.fst ∨ x ∈ l.map Prod.fst := by
  induction l with
  | nil => intro acc x h; exact Or.inl h
  | cons kv rest ih =>
    intro acc x h
    have h' : x ∈ (rest.foldl dictInsert (dictInsert acc kv)).map Prod.fst := h
    rcases ih (dictInsert acc kv) x h' with h1 | h2
    · rcases dictInsert_keys h1 with ha | hb
      · exact Or.inl ha
      · exact Or.inr (by simp [hb])
    · exact Or.inr (List.mem_cons_of_mem _ h2)

lemma dictOf_keys {α : Type} {l : List (Nat × α)} {x : Nat}
    (h : x ∈ (dictOf l).map Prod.fst) : x ∈ l.map Prod.fst := by
  rcases dictOf_keys_aux l [] x h with h1 | h2
  · simp at h1
  · exact h2

lemma mem_seq_get_result {pairs : List (Int × Nat)} {limit cursor : Option Nat}
    {i : Nat} (h : i ∈ SequencePaginator.get_result pairs limit cursor) :
    ∃ s, (s, i) ∈ pairs := by
  unfold SequencePaginator.get_result at h
  have h' : i ∈ ((List.insertionSort cursorRankGe pairs).drop
      (cursor.getD 0)).map (fun p => p.2) := by
    split at h
    · exact List.mem_of_mem_take h
    · exact h
  obtain ⟨p, hp, he⟩ := List.mem_map.mp h'
  refine ⟨p.1, ?_⟩
  have hmem : p ∈ pairs :=
    (List.perm_insertionSort cursorRankGe pairs).subset (List.mem_of_mem_drop hp)
  rw [← he]
  exact hmem

lemma mem_queryNoEnv {db : DB} {project : Project} {sort_by : String}
    {tags : Option Tags} {queryset : List Issue} {limit cursor : Option Nat}
    {kwargs : Params} {res : EnvQueryResult}
    (h : EnvironmentDjangoSearchBackend.queryNoEnv db project sort_by tags
      queryset limit cursor kwargs = Except.ok res) :
    ∀ g ∈ res.results, g ∈ queryset := by
  unfold EnvironmentDjangoSearchBackend.queryNoEnv at h
  cases hb : QueryBuilder.build (noEnvConditions db project) queryset kwargs with
  | none => rw [hb] at h; exact Except.noConfusion h
  | some queryset2 =>
    simp only [hb] at h
    have hsub := QueryBuilder.build_subset (noEnvConditions_filters db project) hb
    intro g hg
    apply hsub
    split at h
    · split at h
      · split at h
        · injection h with hv
          subst hv
          exact absurd hg (by simp)
        · injection h with hv
          subst hv
          exact (List.mem_filter.mp (mem_orderByDesc (mem_paginate hg))).1
      · injection h with hv
        subst hv
        exact mem_orderByDesc (mem_paginate hg)
    · injection h with hv
      subst hv
      exact mem_orderByDesc (mem_paginate hg)

lemma mem_queryEnvScoped {db : DB} {project : Project}
    {strategy : (GroupTagValue → Score) × (Score → Int)} {tagsMap : Tags}
    {envId : Nat} {queryset : List Issue} {limit cursor : Option Nat}
    {kwargs : Params} {res : EnvQueryResult}
    (h : EnvironmentDjangoSearchBackend.queryEnvScoped db project strategy
      tagsMap envId queryset limit cursor kwargs = Except.ok res) :
    ∀ g ∈ res.results, g ∈ db.issues ∧ ∃ g₀ ∈ queryset, g₀.id = g.id := by
  unfold EnvironmentDjangoSearchBackend.queryEnvScoped at h
  cases hl : tagsMap.lookup "environment" with
  | none => rw [hl] at h; exact Except.noConfusion h
  | some envName =>
    simp only [hl] at h
    cases hf : db.environments.find? (fun e =>
        e.project_id == project.id && envName.matchesValue e.name) with
    | none => rw [hf] at h; exact Except.noConfusion h
    | some env =>
      simp only [hf] at h
      by_cases hid : (env.id != envId) = true
      · rw [if_pos hid] at h; exact Except.noConfusion h
      · rw [if_neg hid] at h
        cases hj : QueryBuilder.build [envFirstReleaseCondition db project]
            (environmentJoin db envId queryset) kwargs with
        | none => rw [hj] at h; exact Except.noConfusion h
        | some joined =>
          simp only [hj] at h
          cases hgtv : QueryBuilder.build gtvConditions
              (db.groupTagValues.filter (fun t =>
                t.project_id == project.id && t.key == "environment" &&
                  envName.matchesValue t.value &&
                  (joined.map (fun pr => pr.1.id)).contains t.group_id))
              kwargs with
          | none => rw [hgtv] at h; exact Except.noConfusion h
          | some gtvRows =>
            simp only [hgtv] at h
            injection h with hv
            subst hv
            intro g hg
            have hg' : g ∈ ((SequencePaginator.get_result
                ((intersectTagFilters db
                    (dictOf (gtvRows.map (fun t => (t.group_id, strategy.1 t))))
                    (tagsMap.filter (fun kv => kv.1 != "environment"))).map
                  (fun c => (strategy.2 c.2, c.1))) limit cursor).map
                (fun i => db.issues.find? (fun g' => g'.id == i))).reduceOption :=
              hg
            have hsome := List.reduceOption_mem_iff.mp hg'
            obtain ⟨i, hip, hfind⟩ := List.mem_map.mp hsome
            constructor
            · exact List.mem_of_find?_eq_some hfind
            · have hgid := List.find?_some hfind
              have hgid' : g.id = i := by simpa using hgid
              obtain ⟨s, hs⟩ := mem_seq_get_result hip
              obtain ⟨c, hc, hce⟩ := List.mem_map.mp hs
              have hcand := intersectTagFilters_subset db _ _ c hc
              have hkey : c.1 ∈ (gtvRows.map
                  (fun t => (t.group_id, strategy.1 t))).map Prod.fst :=
                dictOf_keys (List.mem_map_of_mem Prod.fst hcand)
              simp only [List.map_map] at hkey
              obtain ⟨t, ht, hte⟩ := List.mem_map.mp hkey
              have htbase := QueryBuilder.build_subset gtvConditions_filters hgtv t ht
              have htpred := (List.mem_filter.mp htbase).2
              have hcontains : (joined.map (fun pr => pr.1.id)).contains t.group_id := by
                simp only [Bool.and_eq_true] at htpred
                exact htpred.2
              have hidmem : t.group_id ∈ joined.map (fun pr => pr.1.id) := by
                simpa using hcontains
              obtain ⟨pr, hpr, hpre⟩ := List.mem_map.mp hidmem
              refine ⟨pr.1, ?_, ?_⟩
              · exact mem_environmentJoin
                  (QueryBuilder.build_subset
                    (envFirstReleaseCondition_filters db project) hj pr hpr)
              · have hci : c.1 = i := by
                  have := congrArg Prod.snd hce
                  simpa using this
                have hte' : t.group_id = c.1 := by simpa using hte
                rw [hpre, hte', hci, hgid']

lemma mem_env_query {db : DB} {project : Project} {tags : Option Tags}
    {sort_by : String} {environment_id : Option Nat} {cursor limit : Option Nat}
    {kwargs : Params} {res : EnvQueryResult}
    (h : EnvironmentDjangoSearchBackend.query db project tags sort_by
      environment_id cursor limit kwargs = Except.ok res) :
    ∃ qs0, QueryBuilder.build (baseConditions db project)
        ((db.issues.filter (fun g => g.project_id == project.id)).filter
          (fun g => !(defaultExcludedStatuses.contains g.status))) kwargs =
          some qs0 ∧
      ∀ g ∈ res.results, g ∈ db.issues ∧ ∃ g₀ ∈ qs0, g₀.id = g.id := by
  unfold EnvironmentDjangoSearchBackend.query at h
  split at h
  · cases hs : sort_strategies sort_by with
    | none => rw [hs] at h; exact Except.noConfusion h
    | some strategy =>
      simp only [hs] at h
      cases hb : QueryBuilder.build (baseConditions db project)
          ((db.issues.filter (fun g => g.project_id == project.id)).filter
            (fun g => !(defaultExcludedStatuses.contains g.status))) kwargs with
      | none => rw [hb] at h; exact Except.noConfusion h
      | some queryset =>
        simp only [hb] at h
        refine ⟨queryset, rfl, ?_⟩
        cases environment_id with
        | some envId =>
          cases tags with
          | none => exact Except.noConfusion h
          | some tagsMap =>
            intro g hg
            exact mem_queryEnvScoped h g hg
        | none =>
          intro g hg
          have hq := mem_queryNoEnv h g hg
          have hbase := QueryBuilder.build_subset
            (baseConditions_filters db project) hb g hq
          exact ⟨(List.mem_filter.mp (List.mem_filter.mp hbase).1).1,
            g, hq, rfl⟩
  · exact Except.noConfusion h

lemma mem_env_query_base {db : DB} {project : Project} {tags : Option Tags}
    {sort_by : String} {environment_id : Option Nat} {cursor limit : Option Nat}
    {kwargs : Params} {res : EnvQueryResult}
    (h : EnvironmentDjangoSearchBackend.query db project tags sort_by
      environment_id cursor limit kwargs = Except.ok res)
    (hnodup : (db.issues.map (fun g => g.id)).Nodup) :
    ∃ qs0, QueryBuilder.build (baseConditions db project)
        ((db.issues.filter (fun g => g.project_id == project.id)).filter
          (fun g => !(defaultExcludedStatuses.contains g.status))) kwargs =
        some qs0 ∧ ∀ g ∈ res.results, g ∈ qs0 := by
  obtain ⟨qs0, hb, hm⟩ := mem_env_query h
  refine ⟨qs0, hb, ?_⟩
  intro g hg
  obtain ⟨hgdb, g₀, hg₀, hid⟩ := hm g hg
  have hg₀db : g₀ ∈ db.issues :=
    (List.mem_filter.mp (List.mem_filter.mp
      (QueryBuilder.build_subset (baseConditions_filters db project) hb g₀
        hg₀)).1).1
  have he : g₀ = g := List.inj_on_of_nodup_map hnodup hg₀db hgdb hid
  rwa [he] at hg₀

/-- C1: a search call with no `status` filter never returns an Issue whose
status is pending_deletion, deletion_in_progress or pending_merge, and a call
with an explicit `status = X` returns only Issues whose status is exactly `X`
(vacuously so on the environment backend when `X` is a default-excluded
status, since its base queryset always excludes them), on both
`DjangoSearchBackend` and `EnvironmentDjangoSearchBackend`. -/
theorem C1_status_filtering (db : DB) (project : Project) (p : BuildParams)
    (X : GroupStatus) (tags : Option Tags) (sort_by : String)
    (environment_id : Option Nat) (cursor limit : Option Nat) (kwargs : Params)
    (res : EnvQueryResult) :
    (p.status = none →
      ∀ g ∈ (DjangoSearchBackend.query db project p).1,
        g.status ∉ defaultExcludedStatuses) ∧
    (p.status = some X →
      ∀ g ∈ (DjangoSearchBackend.query db project p).1, g.status = X) ∧
    (EnvironmentDjangoSearchBackend.query db project tags sort_by
        environment_id cursor limit kwargs = Except.ok res →
      (db.issues.map (fun g => g.id)).Nodup →
      (kwargs.lookup "status" = none →
        ∀ g ∈ res.results, g.status ∉ defaultExcludedStatuses) ∧
      (kwargs.lookup "status" = some (PyVal.status X) →
        ∀ g ∈ res.results, g.status = X)) := by
  refine ⟨?_, ?_, ?_⟩
  · intro h0 g hg
    exact (mem_buildHead (mem_build_queryset (mem_django_query hg))).2.2.1 h0
  · intro h0 g hg
    exact (mem_buildHead (mem_build_queryset (mem_django_query hg))).2.2.2.1 X h0
  · intro hq hnodup
    obtain ⟨qs0, hb, hmem⟩ := mem_env_query_base hq hnodup
    constructor
    · intro _ g hg
      have hbase := QueryBuilder.build_subset (baseConditions_filters db project)
        hb g (hmem g hg)
      have := (List.mem_filter.mp hbase).2
      simpa using this
    · intro hlook g hg
      have hdec : baseConditions db project =
          [query_condition] ++ status_condition ::
            [bookmarked_by_condition project, assigned_to_condition project,
             unassigned_condition, subscribed_by_condition db project,
             ("active_at_from", scalar_condition "active_at_from"
               (fun g => g.active_at) ScalarOp.gt),
             ("active_at_to", scalar_condition "active_at_to"
               (fun g => g.active_at) ScalarOp.lt)] := rfl
      rw [hdec] at hb
      have hf₂ : ∀ h ∈ [bookmarked_by_condition project,
          assigned_to_condition project, unassigned_condition,
          subscribed_by_condition db project,
          ("active_at_from", scalar_condition "active_at_from"
            (fun g => g.active_at) ScalarOp.gt),
          ("active_at_to", scalar_condition "active_at_to"
            (fun g => g.active_at) ScalarOp.lt)], IsFilter h.2 := by
        intro h hm
        refine baseConditions_filters db project h ?_
        rw [hdec]
        exact List.mem_append_right _ (List.mem_cons_of_mem _ hm)
      have happ := QueryBuilder.build_applied hf₂ hlook
        (show lookupAll kwargs status_condition.2.extraFields = some [] from rfl)
        (fun qs' => rfl) hb
      have := happ g (hmem g hg)
      simpa using this

/-- Witness for C1 at a concrete database: an explicit `status=unresolved`
search on both backends, with a pending-deletion issue in the database. -/
theorem C1_status_filtering_witness :
    c1params.status = some GroupStatus.unresolved ∧
    (exDB.issues.map (fun g => g.id)).Nodup ∧
    c1kwargs.lookup "status" = some (PyVal.status GroupStatus.unresolved) ∧
    EnvironmentDjangoSearchBackend.query exDB exProject none "date" none none
      none c1kwargs = Except.ok ⟨[exIssue1], [], none⟩ ∧
    exIssue1 ∈ (DjangoSearchBackend.query exDB exProject c1params).1 ∧
    exIssue1.status = GroupStatus.unresolved := by
  refine ⟨rfl, by decide, rfl, by rfl, by decide, ?_⟩
  exact (C1_status_filtering exDB exProject c1params GroupStatus.unresolved
    none "date" none none none c1kwargs ⟨[exIssue1], [], none⟩).2.1 rfl
    exIssue1 (by decide)

/-- C2: the environment backend's precondition is
`assert 'date_from' not in kwargs and 'date_from' not in kwargs` (line 343) —
it checks `date_from` twice and never checks `date_to`.  A call carrying a
`date_to` filter therefore passes the assertion, has the filter silently
ignored (no registry handles it) and produces a result page, while the same
call with `date_from` fails fast with the assertion error. -/
theorem C2_date_range_assertion :
    EnvironmentDjangoSearchBackend.query exDB exProject none "date" none none
      none [("date_to", PyVal.int 500)] = Except.ok ⟨[exIssue1], [], none⟩ ∧
    EnvironmentDjangoSearchBackend.query exDB exProject none "date" none none
      none [("date_from", PyVal.int 500)] =
      Except.error QueryError.assertionError :=
  ⟨rfl, rfl⟩

/-- C3 counterexample: on the environment backend a call with both
`assigned_to = 7` and `unassigned = true` does not equal the same call with
only `assigned_to = 7`: the issue assigned to user 7 is dropped, because the
`unassigned` handler is applied as well rather than ignored. -/
theorem C3_counterexample :
    EnvironmentDjangoSearchBackend.query exDB exProject none "date" none none
      none [("assigned_to", PyVal.user 7), ("unassigned", PyVal.bool true)] =
      Except.ok ⟨[], [], none⟩ ∧
    EnvironmentDjangoSearchBackend.query exDB exProject none "date" none none
      none [("assigned_to", PyVal.user 7)] =
      Except.ok ⟨[exIssue1], [], none⟩ :=
  ⟨rfl, rfl⟩

/-- C3 (amended): on the plain backend a present `assigned_to` makes the
`unassigned` filter ignored — the call equals the same call without
`unassigned` (lines 94-102).  On the environment backend the two are separate
registry conditions (lines 362-372) and both apply: every returned Issue is
assigned to the user and additionally satisfies the `unassigned` predicate. -/
theorem C3_assigned_unassigned (db : DB) (project : Project) (p : BuildParams)
    (u : Nat) (b : Bool) (tags : Option Tags) (sort_by : String)
    (environment_id : Option Nat) (cursor limit : Option Nat) (kwargs : Params)
    (res : EnvQueryResult) :
    (p.assigned_to = some u →
      DjangoSearchBackend.query db project p =
        DjangoSearchBackend.query db project { p with unassigned := none }) ∧
    (EnvironmentDjangoSearchBackend.query db project tags sort_by
        environment_id cursor limit kwargs = Except.ok res →
      (db.issues.map (fun g => g.id)).Nodup →
      kwargs.lookup "assigned_to" = some (PyVal.user u) →
      kwargs.lookup "unassigned" = some (PyVal.bool b) →
      ∀ g ∈ res.results,
        (project.id, u) ∈ g.assignee_set ∧ g.assignee_set.isEmpty = b) := by
  constructor
  · intro ha
    have hbh : buildHead db project p =
        buildHead db project { p with unassigned := none } := by
      unfold buildHead
      simp only [ha, assignedStep]
    unfold DjangoSearchBackend.query DjangoSearchBackend.build_queryset
    rw [hbh]
    rfl
  · intro hq hnodup hla hlu
    obtain ⟨qs0, hb, hmem⟩ := mem_env_query_base hq hnodup
    intro g hg
    constructor
    · have hdec : baseConditions db project =
          [query_condition, status_condition, bookmarked_by_condition project]
            ++ assigned_to_condition project ::
              [unassigned_condition, subscribed_by_condition db project,
               ("active_at_from", scalar_condition "active_at_from"
                 (fun g => g.active_at) ScalarOp.gt),
               ("active_at_to", scalar_condition "active_at_to"
                 (fun g => g.active_at) ScalarOp.lt)] := rfl
      have hb' := hb
      rw [hdec] at hb'
      have hf₂ : ∀ h ∈ [unassigned_condition, subscribed_by_condition db project,
          ("active_at_from", scalar_condition "active_at_from"
            (fun g => g.active_at) ScalarOp.gt),
          ("active_at_to", scalar_condition "active_at_to"
            (fun g => g.active_at) ScalarOp.lt)], IsFilter h.2 := by
        intro h hm
        refine baseConditions_filters db project h ?_
        rw [hdec]
        exact List.mem_append_right _ (List.mem_cons_of_mem _ hm)
      have happ := QueryBuilder.build_applied hf₂ hla
        (show lookupAll kwargs
          (assigned_to_condition project).2.extraFields = some [] from rfl)
        (fun qs' => rfl) hb'
      have := happ g (hmem g hg)
      simpa [PyVal.userId, Option.elim] using this
    · have hdec : baseConditions db project =
          [query_condition, status_condition, bookmarked_by_condition project,
           assigned_to_condition project] ++ unassigned_condition ::
              [subscribed_by_condition db project,
               ("active_at_from", scalar_condition "active_at_from"
                 (fun g => g.active_at) ScalarOp.gt),
               ("active_at_to", scalar_condition "active_at_to"
                 (fun g => g.active_at) ScalarOp.lt)] := rfl
      have hb' := hb
      rw [hdec] at hb'
      have hf₂ : ∀ h ∈ [subscribed_by_condition db project,
          ("active_at_from", scalar_condition "active_at_from"
            (fun g => g.active_at) ScalarOp.gt),
          ("active_at_to", scalar_condition "active_at_to"
            (fun g => g.active_at) ScalarOp.lt)], IsFilter h.2 := by
        intro h hm
        refine baseConditions_filters db project h ?_
        rw [hdec]
        exact List.mem_append_right _ (List.mem_cons_of_mem _ hm)
      have happ := QueryBuilder.build_applied hf₂ hlu
        (show lookupAll kwargs unassigned_condition.2.extraFields = some []
          from rfl)
        (fun qs' => rfl) hb'
      have := happ g (hmem g hg)
      simpa using this

/-- Witness for C3 at a concrete database: `assigned_to = 7` together with
`unassigned = false` on both backends. -/
theorem C3_assigned_unassigned_witness :
    c3params.assigned_to = some 7 ∧
    (exDB.issues.map (fun g => g.id)).Nodup ∧
    c3kwargs.lookup "assigned_to" = some (PyVal.user 7) ∧
    c3kwargs.lookup "unassigned" = some (PyVal.bool false) ∧
    EnvironmentDjangoSearchBackend.query exDB exProject none "date" none none
      none c3kwargs = Except.ok ⟨[exIssue1], [], none⟩ ∧
    DjangoSearchBackend.query exDB exProject c3params =
      DjangoSearchBackend.query exDB exProject
        { c3params with unassigned := none } ∧
    ((exProject.id, 7) ∈ exIssue1.assignee_set ∧
      exIssue1.assignee_set.isEmpty = false) := by
  refine ⟨rfl, by decide, rfl, rfl, by rfl, ?_, ?_⟩
  · exact (C3_assigned_unassigned exDB exProject c3params 7 false none "date"
      none none none c3kwargs ⟨[exIssue1], [], none⟩).1 rfl
  · exact (C3_assigned_unassigned exDB exProject c3params 7 false none "date"
      none none none c3kwargs ⟨[exIssue1], [], none⟩).2 (by rfl) (by decide)
      rfl rfl exIssue1 (by decide)

lemma mem_queryNoEnv_built {db : DB} {project : Project} {sort_by : String}
    {tags : Option Tags} {queryset : List Issue} {limit cursor : Option Nat}
    {kwargs : Params} {res : EnvQueryResult}
    (h : EnvironmentDjangoSearchBackend.queryNoEnv db project sort_by tags
      queryset limit cursor kwargs = Except.ok res) :
    ∃ qs2, QueryBuilder.build (noEnvConditions db project) queryset kwargs =
        some qs2 ∧ ∀ g ∈ res.results, g ∈ qs2 := by
  unfold EnvironmentDjangoSearchBackend.queryNoEnv at h
  cases hb : QueryBuilder.build (noEnvConditions db project) queryset kwargs with
  | none => rw [hb] at h; exact Except.noConfusion h
  | some queryset2 =>
    simp only [hb] at h
    refine ⟨queryset2, rfl, ?_⟩
    intro g hg
    split at h
    · split at h
      · split at h
        · injection h with hv
          subst hv
          exact absurd hg (by simp)
        · injection h with hv
          subst hv
          exact (List.mem_filter.mp (mem_orderByDesc (mem_paginate hg))).1
      · injection h with hv
        subst hv
        exact mem_orderByDesc (mem_paginate hg)
    · injection h with hv
      subst hv
      exact mem_orderByDesc (mem_paginate hg)

lemma env_query_noenv_first_release {db : DB} {project : Project}
    {tags : Option Tags} {sort_by : String} {cursor limit : Option Nat}
    {kwargs : Params} {res : EnvQueryResult} {v : PyVal}
    (h : EnvironmentDjangoSearchBackend.query db project tags sort_by none
      cursor limit kwargs = Except.ok res)
    (hv : kwargs.lookup "first_release" = some v) :
    ∀ g ∈ res.results,
      ((g.first_release_id).elim false (fun rid =>
        db.releases.any (fun r =>
          r.id == rid && r.organization_id == project.organization_id &&
            v.matchesReleaseVersion r.version))) = true := by
  unfold EnvironmentDjangoSearchBackend.query at h
  split at h
  · cases hs : sort_strategies sort_by with
    | none => rw [hs] at h; exact Except.noConfusion h
    | some strategy =>
      simp only [hs] at h
      cases hb : QueryBuilder.build (baseConditions db project)
          ((db.issues.filter (fun g => g.project_id == project.id)).filter
            (fun g => !(defaultExcludedStatuses.contains g.status))) kwargs with
      | none => rw [hb] at h; exact Except.noConfusion h
      | some queryset =>
        simp only [hb] at h
        obtain ⟨qs2, hb2, hmem⟩ := mem_queryNoEnv_built h
        have hdec : noEnvConditions db project =
            [] ++ first_release_condition db project ::
              [("age_from", scalar_condition "age_from" (fun g => g.first_seen)
                 ScalarOp.gt),
               ("age_to", scalar_condition "age_to" (fun g => g.first_seen)
                 ScalarOp.lt),
               ("last_seen_from", scalar_condition "last_seen_from"
                 (fun g => g.last_seen) ScalarOp.gt),
               ("last_seen_to", scalar_condition "last_seen_to"
                 (fun g => g.last_seen) ScalarOp.lt),
               ("times_seen", condition (fun qs v _ =>
                 qs.filter (fun g => PyVal.int (g.times_seen : Int) == v))),
               ("times_seen_lower", scalar_condition "times_seen_lower"
                 (fun g => (g.times_seen : Int)) ScalarOp.gt),
               ("times_seen_upper", scalar_condition "times_seen_upper"
                 (fun g => (g.times_seen : Int)) ScalarOp.lt)] := rfl
        rw [hdec] at hb2
        have hf₂ : ∀ hc ∈ [("age_from", scalar_condition "age_from"
              (fun (g : Issue) => g.first_seen) ScalarOp.gt),
            ("age_to", scalar_condition "age_to" (fun g => g.first_seen)
              ScalarOp.lt),
            ("last_seen_from", scalar_condition "last_seen_from"
              (fun g => g.last_seen) ScalarOp.gt),
            ("last_seen_to", scalar_condition "last_seen_to"
              (fun g => g.last_seen) ScalarOp.lt),
            ("times_seen", condition (fun qs v _ =>
              qs.filter (fun g => PyVal.int (g.times_seen : Int) == v))),
            ("times_seen_lower", scalar_condition "times_seen_lower"
              (fun g => (g.times_seen : Int)) ScalarOp.gt),
            ("times_seen_upper", scalar_condition "times_seen_upper"
              (fun g => (g.times_seen : Int)) ScalarOp.lt)], IsFilter hc.2 := by
          intro hc hm
          refine noEnvConditions_filters db project hc ?_
          rw [hdec]
          exact List.mem_append_right _ (List.mem_cons_of_mem _ hm)
        have happ := QueryBuilder.build_applied hf₂ hv
          (show lookupAll kwargs
            (first_release_condition db project).2.extraFields = some [] from rfl)
          (fun qs' => rfl) hb2
        intro g hg
        exact happ g (hmem g hg)
  · exact Except.noConfusion h

/-- C4 counterexample: on the environment backend a `first_release = EMPTY`
call does not short-circuit — the filters after `first_release` still run.
Concretely, a call that also carries a tags filter still performs the tagstore
adapter storage call (the recorded call list is non-empty), unlike the plain
backend which returns before ever reaching the tags filter. -/
theorem C4_counterexample :
    EnvironmentDjangoSearchBackend.query exDB exProject (some c4tags) "date"
        none none none c4kwargs = Except.ok c4res ∧
    c4res.calls = [StorageCall.tagstoreSearch 1 none c4tags] :=
  ⟨rfl, rfl⟩

/-- C4 (amended): `first_release = EMPTY` forces an empty result set
immediately on the plain backend — `_build_queryset` returns `queryset.none()`
with no further filters and no storage calls (lines 113-115).  On the
environment backend there is no short-circuit; the sentinel behaves as an
ordinary version matching no release, so the non-environment path still
produces an empty result set, but only after applying the remaining filters
(including the tagstore call, as the counterexample records). -/
theorem C4_first_release_empty (db : DB) (project : Project) (p : BuildParams)
    (tags : Option Tags) (sort_by : String) (cursor limit : Option Nat)
    (kwargs : Params) (res : EnvQueryResult) :
    (p.first_release = some FirstReleaseParam.EMPTY →
      DjangoSearchBackend.build_queryset db project p = ([], []) ∧
      DjangoSearchBackend.query db project p = ([], [])) ∧
    (EnvironmentDjangoSearchBackend.query db project tags sort_by none cursor
        limit kwargs = Except.ok res →
      kwargs.lookup "first_release" =
        some (PyVal.release FirstReleaseParam.EMPTY) →
      res.results = []) := by
  constructor
  · intro hfr
    have h1 : DjangoSearchBackend.build_queryset db project p = ([], []) := by
      unfold DjangoSearchBackend.build_queryset buildTail
      rw [hfr]
    refine ⟨h1, ?_⟩
    unfold DjangoSearchBackend.query
    rw [h1]
    simp [paginate, orderByDesc]
  · intro hq hv
    have happ := env_query_noenv_first_release hq hv
    rw [List.eq_nil_iff_forall_not_mem]
    intro g hg
    have hp := happ g hg
    cases hfrid : g.first_release_id with
    | none => rw [hfrid] at hp; simp [Option.elim] at hp
    | some rid =>
      rw [hfrid] at hp
      simp [Option.elim, PyVal.matchesReleaseVersion] at hp

/-- Witness for C4 at a concrete database: an `EMPTY` first-release search on
the plain backend (which also carries tags and a date filter that are never
reached) and on the environment backend's non-environment path. -/
theorem C4_first_release_empty_witness :
    c4params.first_release = some FirstReleaseParam.EMPTY ∧
    c4kwargs.lookup "first_release" =
      some (PyVal.release FirstReleaseParam.EMPTY) ∧
    EnvironmentDjangoSearchBackend.query exDB exProject (some c4tags) "date"
      none none none c4kwargs = Except.ok c4res ∧
    DjangoSearchBackend.build_queryset exDB exProject c4params = ([], []) ∧
    c4res.results = [] := by
  refine ⟨rfl, rfl, by rfl, ?_, ?_⟩
  · exact ((C4_first_release_empty exDB exProject c4params (some c4tags)
      "date" none none c4kwargs c4res).1 rfl).1
  · exact (C4_first_release_empty exDB exProject c4params (some c4tags)
      "date" none none c4kwargs c4res).2 (by rfl) rfl

lemma mem_buildTail_tags {db : DB} {project : Project} {p : BuildParams}
    {qs : List Issue} {g : Issue} {ts : Tags}
    (hts : p.tags = some ts) (hne : ts ≠ [])
    (h : g ∈ (buildTail db project p qs).1) :
    g.id ∈ db.get_group_ids_for_search_filter project.id p.environment_id ts := by
  unfold buildTail at h
  split at h
  · simp at h
  · split at h
    · exact mem_buildTags_tags hts hne h
    · exact mem_buildTags_tags hts hne h
  · exact mem_buildTags_tags hts hne h

lemma build_queryset_tags_empty {db : DB} {project : Project} {p : BuildParams}
    {ts : Tags} (hts : p.tags = some ts) (hne : ts ≠ [])
    (hfr : p.first_release ≠ some FirstReleaseParam.EMPTY)
    (hmz : db.get_group_ids_for_search_filter project.id p.environment_id ts = []) :
    DjangoSearchBackend.build_queryset db project p =
      ([], [StorageCall.tagstoreSearch project.id p.environment_id ts]) := by
  have hb : ∀ qs, buildTags db project p qs =
      ([], [StorageCall.tagstoreSearch project.id p.environment_id ts]) := by
    intro qs
    unfold buildTags
    simp only [hts]
    rw [if_pos (show (ts != []) = true by simpa using hne)]
    rw [hmz]
    rfl
  unfold DjangoSearchBackend.build_queryset buildTail
  split
  next hfr' => exact absurd hfr' hfr
  next v hfr' =>
    split
    · exact hb _
    · exact hb _
  next hfr' => exact hb _

lemma env_query_noenv_case {db : DB} {project : Project} {tags : Option Tags}
    {sort_by : String} {cursor limit : Option Nat} {kwargs : Params}
    {res : EnvQueryResult}
    (h : EnvironmentDjangoSearchBackend.query db project tags sort_by none
      cursor limit kwargs = Except.ok res) :
    ∃ queryset, QueryBuilder.build (baseConditions db project)
        ((db.issues.filter (fun g => g.project_id == project.id)).filter
          (fun g => !(defaultExcludedStatuses.contains g.status))) kwargs =
        some queryset ∧
      EnvironmentDjangoSearchBackend.queryNoEnv db project sort_by tags
        queryset limit cursor kwargs = Except.ok res := by
  unfold EnvironmentDjangoSearchBackend.query at h
  split at h
  · cases hs : sort_strategies sort_by with
    | none => rw [hs] at h; exact Except.noConfusion h
    | some strategy =>
      simp only [hs] at h
      cases hb : QueryBuilder.build (baseConditions db project)
          ((db.issues.filter (fun g => g.project_id == project.id)).filter
            (fun g => !(defaultExcludedStatuses.contains g.status))) kwargs with
      | none => rw [hb] at h; exact Except.noConfusion h
      | some queryset =>
        simp only [hb] at h
        exact ⟨queryset, rfl, h⟩
  · exact Except.noConfusion h

lemma queryNoEnv_tags {db : DB} {project : Project} {sort_by : String}
    {tags : Option Tags} {ts : Tags} {queryset : List Issue}
    {limit cursor : Option Nat} {kwargs : Params} {res : EnvQueryResult}
    (h : EnvironmentDjangoSearchBackend.queryNoEnv db project sort_by tags
      queryset limit cursor kwargs = Except.ok res)
    (hts : tags = some ts) (hne : ts ≠ []) :
    (db.get_group_ids_for_search_filter project.id none ts = [] →
      res = ⟨[], [StorageCall.tagstoreSearch project.id none ts], some ts⟩) ∧
    (∀ g ∈ res.results,
      g.id ∈ db.get_group_ids_for_search_filter project.id none ts) := by
  unfold EnvironmentDjangoSearchBackend.queryNoEnv at h
  cases hb : QueryBuilder.build (noEnvConditions db project) queryset kwargs with
  | none => rw [hb] at h; exact Except.noConfusion h
  | some qs2 =>
    simp only [hb, hts] at h
    rw [if_pos (show (ts != []) = true by simpa using hne)] at h
    by_cases hz : (db.get_group_ids_for_search_filter project.id none ts).isEmpty
    · rw [if_pos hz] at h
      injection h with hv
      subst hv
      constructor
      · intro _; rfl
      · intro g hg; exact absurd hg (by simp)
    · rw [if_neg hz] at h
      injection h with hv
      subst hv
      constructor
      · intro hmz; exact absurd (by simp [hmz]) hz
      · intro g hg
        have := (List.mem_filter.mp (mem_orderByDesc (mem_paginate hg))).2
        simpa using this

/-- C5: a truthy `tags` filter goes through the tagstore adapter.  An empty
match set short-circuits: the result set is empty and the adapter call is the
only storage call recorded — in particular no event query runs even when a
date filter is also present.  A non-empty match set restricts the result set
to the returned issue ids.  This holds on `DjangoSearchBackend` and on the
non-environment path of `EnvironmentDjangoSearchBackend`. -/
theorem C5_tags_short_circuit (db : DB) (project : Project) (p : BuildParams)
    (ts : Tags) (sort_by : String) (cursor limit : Option Nat)
    (kwargs : Params) (res : EnvQueryResult) :
    (p.tags = some ts → ts ≠ [] →
      p.first_release ≠ some FirstReleaseParam.EMPTY →
      (db.get_group_ids_for_search_filter project.id p.environment_id ts = [] →
        DjangoSearchBackend.build_queryset db project p =
          ([], [StorageCall.tagstoreSearch project.id p.environment_id ts])) ∧
      (∀ g ∈ (DjangoSearchBackend.build_queryset db project p).1,
        g.id ∈ db.get_group_ids_for_search_filter project.id p.environment_id ts)) ∧
    (EnvironmentDjangoSearchBackend.query db project (some ts) sort_by none
        cursor limit kwargs = Except.ok res → ts ≠ [] →
      (db.get_group_ids_for_search_filter project.id none ts = [] →
        res.results = [] ∧
        res.calls = [StorageCall.tagstoreSearch project.id none ts]) ∧
      (∀ g ∈ res.results,
        g.id ∈ db.get_group_ids_for_search_filter project.id none ts)) := by
  constructor
  · intro hts hne hfr
    constructor
    · intro hmz
      exact build_queryset_tags_empty hts hne hfr hmz
    · intro g hg
      exact mem_buildTail_tags hts hne hg
  · intro hq hne
    obtain ⟨queryset, _, hno⟩ := env_query_noenv_case hq
    obtain ⟨hempty, hrestrict⟩ := queryNoEnv_tags hno rfl hne
    constructor
    · intro hmz
      have hr := hempty hmz
      subst hr
      exact ⟨rfl, rfl⟩
    · exact hrestrict

/-- Witness for C5 at a concrete database whose tagstore adapter matches no
issues: both backends return the empty page with exactly the adapter call in
the trace, although the plain-backend call also carries a date filter. -/
theorem C5_tags_short_circuit_witness :
    c5params.tags = some c4tags ∧ c4tags ≠ [] ∧
    c5params.first_release ≠ some FirstReleaseParam.EMPTY ∧
    exDB.get_group_ids_for_search_filter exProject.id c5params.environment_id
      c4tags = [] ∧
    EnvironmentDjangoSearchBackend.query exDB exProject (some c4tags) "date"
      none none none [] = Except.ok c5res ∧
    DjangoSearchBackend.build_queryset exDB exProject c5params =
      ([], [StorageCall.tagstoreSearch exProject.id c5params.environment_id
        c4tags]) ∧
    (c5res.results = [] ∧
      c5res.calls = [StorageCall.tagstoreSearch exProject.id none c4tags]) := by
  refine ⟨rfl, by decide, by decide, rfl, by rfl, ?_, ?_⟩
  · exact ((C5_tags_short_circuit exDB exProject c5params c4tags "date" none
      none [] c5res).1 rfl (by decide) (by decide)).1 rfl
  · exact ((C5_tags_short_circuit exDB exProject c5params c4tags "date" none
      none [] c5res).2 (by rfl) (by decide)).1 rfl

/-- C6: `scalar_condition` resolves the sibling inclusive flag to the
comparison operator — inclusive gives `>=`/`<=` and exclusive gives `>`/`<` —
and on the plain backend `age_from = T` with `age_from_inclusive = false`
returns exactly the project's non-excluded Issues with `first_seen > T`,
excluding any Issue with `first_seen = T`. -/
theorem C6_scalar_range (db : DB) (project : Project) (T : Int) (g : Issue) :
    (∀ (β : Type) (param : String) (field : β → Int) (op : ScalarOp)
        (qs : List β) (v inc : PyVal),
      (scalar_condition param field op).cb qs v [inc] =
        qs.filter (fun x => op.apply inc.truthy (field x) v.asInt)) ∧
    (∀ x b : Int,
      (ScalarOp.gt.apply true x b = true ↔ b ≤ x) ∧
      (ScalarOp.gt.apply false x b = true ↔ b < x) ∧
      (ScalarOp.lt.apply true x b = true ↔ x ≤ b) ∧
      (ScalarOp.lt.apply false x b = true ↔ x < b)) ∧
    (g ∈ (DjangoSearchBackend.build_queryset db project
        { age_from := some T, age_from_inclusive := false }).1 ↔
      (g ∈ db.issues ∧ g.project_id = project.id ∧
        g.status ∉ defaultExcludedStatuses ∧ T < g.first_seen)) := by
  refine ⟨fun β param field op qs v inc => rfl, ?_, ?_⟩
  · intro x b
    refine ⟨?_, ?_, ?_, ?_⟩ <;> simp [ScalarOp.apply]
  · unfold DjangoSearchBackend.build_queryset buildTail buildTags buildRanges
      buildHead queryStep statusStep bookmarkedStep assignedStep
      subscribedStep scalarRangeStep timesSeenStep dateStep
    simp [boundPred, List.mem_filter, and_assoc]
    intro _
    constructor
    · rintro ⟨h1, h2, h3⟩; exact ⟨h3, h2, h1⟩
    · rintro ⟨h1, h2, h3⟩; exact ⟨h3, h2, h1⟩

/-- Witness for C6 at a concrete database: with `first_seen = 100`, an
exclusive `age_from = 100` excludes the issue and an exclusive
`age_from = 99` includes it. -/
theorem C6_scalar_range_witness :
    exIssue1.first_seen = 100 ∧
    exIssue1 ∉ (DjangoSearchBackend.build_queryset exDB exProject
      { age_from := some 100, age_from_inclusive := false }).1 ∧
    exIssue1 ∈ (DjangoSearchBackend.build_queryset exDB exProject
      { age_from := some 99, age_from_inclusive := false }).1 := by
  refine ⟨rfl, ?_, ?_⟩
  · intro h
    have hm := (C6_scalar_range exDB exProject 100 exIssue1).2.2.mp h
    exact absurd hm.2.2.2 (by decide)
  · exact (C6_scalar_range exDB exProject 99 exIssue1).2.2.mpr
      ⟨by decide, by decide, by decide, by decide⟩

lemma mem_tagMatchIds {db : DB} {key : String} {value : TagValue}
    {candidateIds : List Nat} {id : Nat} :
    id ∈ tagMatchIds db key value candidateIds ↔
      tagMatches db key value id = true ∧ id ∈ candidateIds := by
  cases value with
  | any =>
    simp [tagMatchIds, tagMatches]
    aesop
  | val v =>
    simp [tagMatchIds, tagMatches]
    aesop

lemma intersectTagFilters_mem {α : Type} (db : DB) (tags : Tags) :
    ∀ (cands : List (Nat × α)) (c : Nat × α),
      c ∈ intersectTagFilters db cands tags ↔
        c ∈ cands ∧ ∀ kv ∈ tags, tagMatches db kv.1 kv.2 c.1 = true := by
  induction tags with
  | nil => intro cands c; simp [intersectTagFilters]
  | cons kv rest ih =>
    intro cands c
    have hstep : c ∈ cands.filter (fun c =>
        (tagMatchIds db kv.1 kv.2 (cands.map (fun x => x.1))).contains c.1) ↔
        c ∈ cands ∧ tagMatches db kv.1 kv.2 c.1 = true := by
      rw [List.mem_filter]
      constructor
      · rintro ⟨h1, h2⟩
        exact ⟨h1, (mem_tagMatchIds.mp (by simpa using h2)).1⟩
      · rintro ⟨h1, h2⟩
        refine ⟨h1, ?_⟩
        have hin : c.1 ∈ cands.map (fun x => x.1) :=
          List.mem_map_of_mem _ h1
        simpa using mem_tagMatchIds.mpr ⟨h2, hin⟩
    have hfold : c ∈ intersectTagFilters db cands (kv :: rest) ↔
        c ∈ intersectTagFilters db (cands.filter (fun c =>
          (tagMatchIds db kv.1 kv.2 (cands.map (fun x => x.1))).contains c.1))
          rest := Iff.rfl
    rw [hfold, ih, hstep]
    simp only [List.forall_mem_cons]
    tauto

/-- C7: in the environment-scoped path, the candidate set after the generic
tag-filter loop is exactly the initial candidate set intersected with every
tag filter's (unrestricted) match set; a wildcard (`ANY`) filter keeps exactly
the candidates for which the tag key exists. -/
theorem C7_tag_intersection {α : Type} (db : DB) (cands : List (Nat × α))
    (tags : Tags) (c : Nat × α) (k : String) :
    (c ∈ intersectTagFilters db cands tags ↔
      c ∈ cands ∧ ∀ kv ∈ tags, tagMatches db kv.1 kv.2 c.1 = true) ∧
    (intersectTagFilters db cands [(k, TagValue.any)] =
      cands.filter (fun c =>
        db.groupTagKeys.any (fun t => t.key == k && t.group_id == c.1))) := by
  constructor
  · exact intersectTagFilters_mem db tags cands c
  · show cands.filter (fun c =>
        (tagMatchIds db k TagValue.any (cands.map (fun x => x.1))).contains c.1)
      = cands.filter (fun c =>
        db.groupTagKeys.any (fun t => t.key == k && t.group_id == c.1))
    refine List.filter_congr (fun x hx => ?_)
    have hin : x.1 ∈ cands.map (fun y => y.1) := List.mem_map_of_mem _ hx
    cases hmm : db.groupTagKeys.any (fun t => t.key == k && t.group_id == x.1) with
    | true =>
      have : x.1 ∈ tagMatchIds db k TagValue.any (cands.map (fun y => y.1)) :=
        mem_tagMatchIds.mpr ⟨hmm, hin⟩
      simpa using this
    | false =>
      cases hcc : (tagMatchIds db k TagValue.any
          (cands.map (fun y => y.1))).contains x.1 with
      | true =>
        have := (mem_tagMatchIds.mp (by simpa using hcc)).1
        exact absurd this (by simp [tagMatches, hmm])
      | false => rfl

/-- Witness for C7, the spec's own example: candidates {1, 2, 3} and two tag
filters matching {1, 2} and {2, 3} leave exactly candidate 2. -/
theorem C7_tag_intersection_witness :
    (2, (0 : Nat)) ∈ intersectTagFilters c7db [(1, (0 : Nat)), (2, 0), (3, 0)]
      [("a", TagValue.val "x"), ("b", TagValue.val "y")] ∧
    intersectTagFilters c7db [(1, (0 : Nat)), (2, 0), (3, 0)]
      [("a", TagValue.val "x"), ("b", TagValue.val "y")] = [(2, 0)] := by
  constructor
  · exact (C7_tag_intersection c7db [(1, (0 : Nat)), (2, 0), (3, 0)]
      [("a", TagValue.val "x"), ("b", TagValue.val "y")] (2, 0) "k").1.mpr
      ⟨by decide, by decide⟩
  · decide

/-- C8: applying the registry's conditions in any permutation of the
declaration order produces the same built queryset as declaration order (for
both the base registry and the non-environment registry), and a condition
whose parameter is absent from the parameters dictionary (the `undefined`
sentinel of line 298) leaves the query state unchanged: it can be removed
from the handler list without affecting the result. -/
theorem C8_order_independence (db : DB) (project : Project) (qs : List Issue)
    (ps : Params) (hs' : List (String × Condition Issue)) :
    ((baseConditions db project).Perm hs' →
      QueryBuilder.build hs' qs ps =
        QueryBuilder.build (baseConditions db project) qs ps) ∧
    ((noEnvConditions db project).Perm hs' →
      QueryBuilder.build hs' qs ps =
        QueryBuilder.build (noEnvConditions db project) qs ps) ∧
    (∀ (β : Type) (l₁ l₂ : List (String × Condition β)) (name : String)
        (c : Condition β) (qs' : List β) (ps' : Params),
      ps'.lookup name = none →
      QueryBuilder.build (l₁ ++ (name, c) :: l₂) qs' ps' =
        QueryBuilder.build (l₁ ++ l₂) qs' ps') := by
  refine ⟨?_, ?_, ?_⟩
  · intro hperm
    exact (QueryBuilder.build_perm hperm (baseConditions_filters db project)
      qs ps).symm
  · intro hperm
    exact (QueryBuilder.build_perm hperm (noEnvConditions_filters db project)
      qs ps).symm
  · intro β l₁ l₂ name c qs' ps' hnone
    exact QueryBuilder.build_skip l₁ l₂ name c qs' ps' hnone

/-- Witness for C8: swapping the first two conditions of the base registry
yields the same built queryset, and the `status` condition applied with a
parameters dictionary lacking `status` is a no-op. -/
theorem C8_order_independence_witness :
    (baseConditions exDB exProject).Perm c8perm ∧
    QueryBuilder.build c8perm [exIssue1] c1kwargs =
      QueryBuilder.build (baseConditions exDB exProject) [exIssue1] c1kwargs ∧
    ([("x", PyVal.int 1)] : Params).lookup "status" = none ∧
    QueryBuilder.build [status_condition] [exIssue1] [("x", PyVal.int 1)] =
      QueryBuilder.build [] [exIssue1] [("x", PyVal.int 1)] := by
  have hperm : (baseConditions exDB exProject).Perm c8perm := by
    unfold baseConditions c8perm
    exact List.Perm.swap _ _ _
  refine ⟨hperm, ?_, rfl, ?_⟩
  · exact (C8_order_independence exDB exProject [exIssue1] c1kwargs c8perm).1
      hperm
  · exact (C8_order_independence exDB exProject [exIssue1] c1kwargs c8perm).2.2
      Issue [] [] "status" status_condition.2 [exIssue1] [("x", PyVal.int 1)]
      rfl

lemma pyInt_intCast (n : Int) : pyInt ((n : Int) : ℝ) = n := by
  unfold pyInt
  split <;> simp

lemma logb_ten_hundred : Real.logb 10 (100 : ℝ) = 2 := by
  have h : (100 : ℝ) = 10 ^ (2 : ℕ) := by norm_num
  rw [h, Real.logb_pow, Real.logb_self_eq_one (by norm_num)]
  norm_num

lemma priority_cursor_score_hundred (T : Int) :
    (Score.priority 100 T).toCursorScore = 1200 + T := by
  show pyInt (Real.logb 10 ((100 : Nat) : ℝ) * 600 + (T : ℝ)) = 1200 + T
  have hc : ((100 : Nat) : ℝ) = (100 : ℝ) := by norm_num
  rw [hc, logb_ten_hundred]
  have h : (2 : ℝ) * 600 + (T : ℝ) = (((1200 + T : Int) : Int) : ℝ) := by
    push_cast
    ring
  rw [h, pyInt_intCast]

lemma priority_cursor_score_ten (T : Int) :
    (Score.priority 10 T).toCursorScore = 600 + T := by
  show pyInt (Real.logb 10 ((10 : Nat) : ℝ) * 600 + (T : ℝ)) = 600 + T
  have hc : ((10 : Nat) : ℝ) = (10 : ℝ) := by norm_num
  rw [hc, Real.logb_self_eq_one (by norm_num)]
  have h : (1 : ℝ) * 600 + (T : ℝ) = (((600 + T : Int) : Int) : ℝ) := by
    push_cast
    ring
  rw [h, pyInt_intCast]

lemma seq_pair_of_lt {s₁ s₂ : Int} (i j : Nat) (h : s₂ < s₁) :
    SequencePaginator.get_result [(s₁, i), (s₂, j)] none none = [i, j] ∧
    SequencePaginator.get_result [(s₂, j), (s₁, i)] none none = [i, j] := by
  constructor
  · unfold SequencePaginator.get_result
    simp only [List.insertionSort, List.orderedInsert]
    rw [if_pos (show cursorRankGe (s₁, i) (s₂, j) from Or.inl h)]
    rfl
  · unfold SequencePaginator.get_result
    simp only [List.insertionSort, List.orderedInsert]
    have hneg : ¬ cursorRankGe (s₂, j) (s₁, i) := by
      rintro (h' | ⟨he, -⟩)
      · exact absurd h' (lt_asymm h)
      · exact absurd he (ne_of_lt h)
    rw [if_neg hneg]
    rfl

lemma seq_pair_tie (s : Int) (i j : Nat) :
    SequencePaginator.get_result [(s, i), (s, j)] none none =
      SequencePaginator.get_result [(s, j), (s, i)] none none := by
  unfold SequencePaginator.get_result
  have hL : List.insertionSort cursorRankGe [(s, i), (s, j)] =
      if j ≤ i then [(s, i), (s, j)] else [(s, j), (s, i)] := by
    simp only [List.insertionSort, List.orderedInsert]
    by_cases hc : j ≤ i
    · rw [if_pos (show cursorRankGe (s, i) (s, j) from Or.inr ⟨rfl, hc⟩),
        if_pos hc]
    · rw [if_neg ?_, if_neg hc]
      rintro (h' | ⟨-, h'⟩)
      · exact absurd h' (lt_irrefl s)
      · exact hc h'
  have hR : List.insertionSort cursorRankGe [(s, j), (s, i)] =
      if i ≤ j then [(s, j), (s, i)] else [(s, i), (s, j)] := by
    simp only [List.insertionSort, List.orderedInsert]
    by_cases hc : i ≤ j
    · rw [if_pos (show cursorRankGe (s, j) (s, i) from Or.inr ⟨rfl, hc⟩),
        if_pos hc]
    · rw [if_neg ?_, if_neg hc]
      rintro (h' | ⟨-, h'⟩)
      · exact absurd h' (lt_irrefl s)
      · exact hc h'
  rw [hL, hR]
  rcases lt_trichotomy i j with hlt | heq | hlt
  · rw [if_neg (by omega), if_pos (by omega)]
  · subst heq
    rfl
  · rw [if_pos (by omega), if_neg (by omega)]

/-- C9: the `priority` sort strategy scores an issue's per-environment row by
`log(times_seen) * 600 + last_seen` ranked descending — so with equal
`last_seen`, `times_seen = 100` ranks strictly above `times_seen = 10`
whatever the order the candidates arrive in — and equal cursor scores are
ordered by the id tie-break identically on every call. -/
theorem C9_priority_ranking (T : Int) (idA idB : Nat) (t : GroupTagValue)
    (tsA tsB : Nat) (hA : tsA = 100) (hB : tsB = 10) :
    (∃ strat, sort_strategies "priority" = some strat ∧
      strat.1 t = Score.priority t.times_seen t.last_seen ∧
      strat.2 = Score.toCursorScore) ∧
    (Score.priority t.times_seen t.last_seen).toReal =
      Real.logb 10 (t.times_seen : ℝ) * 600 + (t.last_seen : ℝ) ∧
    (Score.priority tsB T).toReal < (Score.priority tsA T).toReal ∧
    SequencePaginator.get_result
      [((Score.priority tsA T).toCursorScore, idA),
       ((Score.priority tsB T).toCursorScore, idB)] none none = [idA, idB] ∧
    SequencePaginator.get_result
      [((Score.priority tsB T).toCursorScore, idB),
       ((Score.priority tsA T).toCursorScore, idA)] none none = [idA, idB] ∧
    (∀ (s : Int) (i j : Nat),
      SequencePaginator.get_result [(s, i), (s, j)] none none =
        SequencePaginator.get_result [(s, j), (s, i)] none none) := by
  subst hA
  subst hB
  have hcs : (600 : Int) + T < 1200 + T := by omega
  refine ⟨⟨_, rfl, rfl, rfl⟩, rfl, ?_, ?_, ?_, fun s i j => seq_pair_tie s i j⟩
  · show Real.logb 10 ((10 : Nat) : ℝ) * 600 + (T : ℝ) <
      Real.logb 10 ((100 : Nat) : ℝ) * 600 + (T : ℝ)
    have hlt : Real.logb 10 ((10 : Nat) : ℝ) < Real.logb 10 ((100 : Nat) : ℝ) := by
      refine Real.logb_lt_logb (by norm_num) (by norm_num) (by norm_num)
    linarith
  · rw [priority_cursor_score_hundred, priority_cursor_score_ten]
    exact (seq_pair_of_lt idA idB hcs).1
  · rw [priority_cursor_score_hundred, priority_cursor_score_ten]
    exact (seq_pair_of_lt idA idB hcs).2

/-- Witness for C9: times_seen 100 versus 10 at the same last_seen timestamp
0, ids 1 and 2. -/
theorem C9_priority_ranking_witness :
    (100 : Nat) = 100 ∧ (10 : Nat) = 10 ∧
    SequencePaginator.get_result
      [((Score.priority 100 0).toCursorScore, 1),
       ((Score.priority 10 0).toCursorScore, 2)] none none = [1, 2] := by
  refine ⟨rfl, rfl, ?_⟩
  exact (C9_priority_ranking 0 1 2 ⟨1, 1, "environment", "production", 100,
    200, 3⟩ 100 10 rfl rfl).2.2.2.1

lemma lookup_filter_ne (l : Tags) (k : String) :
    (l.filter (fun kv => kv.1 != k)).lookup k = none := by
  induction l with
  | nil => rfl
  | cons kv rest ih =>
    obtain ⟨k1, v1⟩ := kv
    by_cases hk : (k1 != k) = true
    · have hne : (k == k1) = false := by
        simp only [bne_iff_ne, ne_eq] at hk
        simp only [beq_eq_false_iff_ne, ne_eq]
        exact fun he => hk he.symm
      simp [List.filter_cons, hk, List.lookup, hne, ih]
    · simp [List.filter_cons, hk, ih]

lemma queryEnvScoped_ok {db : DB} {project : Project}
    {strategy : (GroupTagValue → Score) × (Score → Int)} {tagsMap : Tags}
    {envId : Nat} {queryset : List Issue} {limit cursor : Option Nat}
    {kwargs : Params} {res : EnvQueryResult}
    (h : EnvironmentDjangoSearchBackend.queryEnvScoped db project strategy
      tagsMap envId queryset limit cursor kwargs = Except.ok res) :
    (∃ envName env, tagsMap.lookup "environment" = some envName ∧
      db.environments.find? (fun en =>
        en.project_id == project.id && envName.matchesValue en.name) =
        some env ∧ env.id = envId) ∧
    res.tagsAfter = some (tagsMap.filter (fun kv => kv.1 != "environment")) := by
  unfold EnvironmentDjangoSearchBackend.queryEnvScoped at h
  cases hl : tagsMap.lookup "environment" with
  | none => rw [hl] at h; exact Except.noConfusion h
  | some envName =>
    simp only [hl] at h
    cases hf : db.environments.find? (fun e =>
        e.project_id == project.id && envName.matchesValue e.name) with
    | none => rw [hf] at h; exact Except.noConfusion h
    | some env =>
      simp only [hf] at h
      by_cases hid : (env.id != envId) = true
      · rw [if_pos hid] at h; exact Except.noConfusion h
      · rw [if_neg hid] at h
        refine ⟨⟨envName, env, rfl, hf, by simpa using hid⟩, ?_⟩
        cases hj : QueryBuilder.build [envFirstReleaseCondition db project]
            (environmentJoin db envId queryset) kwargs with
        | none => rw [hj] at h; exact Except.noConfusion h
        | some joined =>
          simp only [hj] at h
          cases hgtv : QueryBuilder.build gtvConditions
              (db.groupTagValues.filter (fun t =>
                t.project_id == project.id && t.key == "environment" &&
                  envName.matchesValue t.value &&
                  (joined.map (fun pr => pr.1.id)).contains t.group_id))
              kwargs with
          | none => rw [hgtv] at h; exact Except.noConfusion h
          | some gtvRows =>
            simp only [hgtv] at h
            injection h with hv
            subst hv
            rfl

/-- C10: on every environment-scoped call (`environment_id = some e`) the
backend requires that the `tags` mapping exists (else `TypeError`), that it
contains an `'environment'` key whose project environment resolves to exactly
`e` (else the `assert` fails); and it pops the `'environment'` entry from the
caller's mapping before the generic tag intersection: after a successful call
the mapping no longer contains an `'environment'` entry. -/
theorem C10_environment_pop (db : DB) (project : Project) (tagsMap : Tags)
    (sort_by : String) (e : Nat) (cursor limit : Option Nat) (kwargs : Params)
    (res : EnvQueryResult) :
    (∀ r, EnvironmentDjangoSearchBackend.query db project none sort_by (some e)
      cursor limit kwargs ≠ Except.ok r) ∧
    (tagsMap.lookup "environment" = none →
      ∀ r, EnvironmentDjangoSearchBackend.query db project (some tagsMap)
        sort_by (some e) cursor limit kwargs ≠ Except.ok r) ∧
    (EnvironmentDjangoSearchBackend.query db project (some tagsMap) sort_by
        (some e) cursor limit kwargs = Except.ok res →
      (∃ envName env, tagsMap.lookup "environment" = some envName ∧
        db.environments.find? (fun en =>
          en.project_id == project.id && envName.matchesValue en.name) =
          some env ∧ env.id = e) ∧
      res.tagsAfter =
        some (tagsMap.filter (fun kv => kv.1 != "environment")) ∧
      (tagsMap.filter (fun kv => kv.1 != "environment")).lookup "environment" =
        none) := by
  refine ⟨?_, ?_, ?_⟩
  · intro r hq
    unfold EnvironmentDjangoSearchBackend.query at hq
    split at hq
    · cases hs : sort_strategies sort_by with
      | none => rw [hs] at hq; exact Except.noConfusion hq
      | some strategy =>
        simp only [hs] at hq
        cases hb : QueryBuilder.build (baseConditions db project)
            ((db.issues.filter (fun g => g.project_id == project.id)).filter
              (fun g => !(defaultExcludedStatuses.contains g.status)))
            kwargs with
        | none => rw [hb] at hq; exact Except.noConfusion hq
        | some queryset => simp only [hb] at hq; exact Except.noConfusion hq
    · exact Except.noConfusion hq
  · intro hl r hq
    unfold EnvironmentDjangoSearchBackend.query at hq
    split at hq
    · cases hs : sort_strategies sort_by with
      | none => rw [hs] at hq; exact Except.noConfusion hq
      | some strategy =>
        simp only [hs] at hq
        cases hb : QueryBuilder.build (baseConditions db project)
            ((db.issues.filter (fun g => g.project_id == project.id)).filter
              (fun g => !(defaultExcludedStatuses.contains g.status)))
            kwargs with
        | none => rw [hb] at hq; exact Except.noConfusion hq
        | some queryset =>
          simp only [hb] at hq
          unfold EnvironmentDjangoSearchBackend.queryEnvScoped at hq
          rw [hl] at hq
          exact Except.noConfusion hq
    · exact Except.noConfusion hq
  · intro hq
    unfold EnvironmentDjangoSearchBackend.query at hq
    split at hq
    · cases hs : sort_strategies sort_by with
      | none => rw [hs] at hq; exact Except.noConfusion hq
      | some strategy =>
        simp only [hs] at hq
        cases hb : QueryBuilder.build (baseConditions db project)
            ((db.issues.filter (fun g => g.project_id == project.id)).filter
              (fun g => !(defaultExcludedStatuses.contains g.status)))
            kwargs with
        | none => rw [hb] at hq; exact Except.noConfusion hq
        | some queryset =>
          simp only [hb] at hq
          obtain ⟨hex, hafter⟩ := queryEnvScoped_ok hq
          exact ⟨hex, hafter, lookup_filter_ne tagsMap "environment"⟩
    · exact Except.noConfusion hq

/-- Witness for C10 at a concrete database: an environment-scoped call whose
`tags` mapping is exactly `{'environment': 'production'}` succeeds with the
entry popped, and the same call with an empty mapping cannot succeed. -/
theorem C10_environment_pop_witness :
    EnvironmentDjangoSearchBackend.query exDB exProject (some c10tags) "date"
      (some 5) none none [] = Except.ok c10res ∧
    c10res.tagsAfter =
      some (c10tags.filter (fun kv => kv.1 != "environment")) ∧
    (c10tags.filter (fun kv => kv.1 != "environment")).lookup "environment" =
      none ∧
    ([] : Tags).lookup "environment" = none ∧
    EnvironmentDjangoSearchBackend.query exDB exProject (some ([] : Tags))
      "date" (some 5) none none [] ≠ Except.ok c10res := by
  refine ⟨by rfl, ?_, ?_, rfl, ?_⟩
  · exact ((C10_environment_pop exDB exProject c10tags "date" 5 none none []
      c10res).2.2 (by rfl)).2.1
  · exact ((C10_environment_pop exDB exProject c10tags "date" 5 none none []
      c10res).2.2 (by rfl)).2.2
  · exact (C10_environment_pop exDB exProject ([] : Tags) "date" 5 none none
      [] c10res).2.1 rfl c10res
